import Mathlib

/-!
# Shallow embedding of `src/advanced_validator.py`

This file embeds the advanced data-quality validator (`AdvancedDataValidator`)
of the repository: the input table model, the normalizers, every detector
called from `validate_dataset`, and the report builder
(`_generate_validation_report`), together with theorems settling the
specification claims about them.

Modelling conventions:

* A table cell is absent (`NaN`), a string, or an integer — the value kinds a
  CSV ingestion produces for the columns these detectors read.  Machine floats
  appear in the source only through percentage/score arithmetic, which is
  embedded exactly over `ℚ` (thresholds such as `> 40`, `< 16` years and
  `/ 365.25` are carried out in exact rational arithmetic; `365.25 = 1461/4`).
* External library calls (`phonenumbers`, `pd.to_datetime`, `datetime.now`)
  are abstract functions bundled in an `Env` parameter; a parse failure is
  `none`.
* Python exceptions are embedded with `Except`: the `.str` accessor on a
  non-object-dtype column raises `AttributeError`, and arithmetic/comparison
  on string-valued "age" cells raises `TypeError`.  `validate_dataset` itself
  installs no handler around the detector calls, so such faults propagate.
-/

set_option maxRecDepth 10000

namespace AdvValidator

/-- One table cell: absent (`NaN`), a string, or an integer. -/
inductive Cell where
  | absent
  | str (s : String)
  | int (n : Int)
deriving DecidableEq, Repr

/-- `pd.isna` on one cell. -/
def Cell.isna : Cell → Bool
  | .absent => true
  | _ => false

/-- Whether the cell holds a string. -/
def Cell.isStr : Cell → Bool
  | .str _ => true
  | _ => false

/-- A named column of cells. -/
structure Column where
  name : String
  cells : List Cell
deriving DecidableEq, Repr

/-- The input `DataFrame`: named columns over a shared positional row index
`0, 1, ..., nRows-1`. -/
structure Table where
  cols : List Column
deriving DecidableEq, Repr

/-- Number of rows (length of the first column; all columns agree under
`Table.wf`). -/
def Table.nRows (t : Table) : Nat := (t.cols.headD ⟨"", []⟩).cells.length

/-- Well-formedness: every column has the common length. -/
def Table.wf (t : Table) : Prop := ∀ c ∈ t.cols, c.cells.length = t.nRows

/-- `df[name]`: the cells of the (first) column called `name`. -/
def Table.getCol (t : Table) (name : String) : Option (List Cell) :=
  (t.cols.find? (fun c => c.name == name)).map Column.cells

/-- `df.columns`. -/
def Table.colNames (t : Table) : List String := t.cols.map Column.name

/-- `name in df.columns`. -/
def Table.hasCol (t : Table) (name : String) : Bool := t.colNames.contains name

/-- One row as `df.to_dict('records')` produces it: column name ↦ cell. -/
def Table.row (t : Table) (i : Nat) : List (String × Cell) :=
  t.cols.map (fun c => (c.name, c.cells.getD i .absent))

/-- `series.dropna()`. -/
def dropNa (cs : List Cell) : List Cell := cs.filter (fun c => !c.isna)

/-- Distinct values in order of first appearance, skipping those already in
`seen`. -/
def uniqueFirstAux {α : Type} [DecidableEq α] : List α → List α → List α
  | [], _ => []
  | a :: as, seen =>
    if a ∈ seen then uniqueFirstAux as seen else a :: uniqueFirstAux as (a :: seen)

/-- Distinct values in order of first appearance (`Series.unique()`, also the
iteration order of `value_counts` groups). -/
def uniqueFirst {α : Type} [DecidableEq α] (l : List α) : List α :=
  uniqueFirstAux l []

/-- `Series.value_counts()`: distinct values with their multiplicities, sorted
by multiplicity descending (stable). -/
def valueCounts {α : Type} [DecidableEq α] (l : List α) : List (α × Nat) :=
  List.insertionSort (fun a b => b.2 ≤ a.2) ((uniqueFirst l).map (fun v => (v, l.count v)))

/-- Python `str.lower()` (ASCII case folding, as the column names and emails
these detectors compare use ASCII). -/
def pyLower (s : String) : String := String.mk (s.toList.map Char.toLower)

/-- Python `str.strip()` / pandas `.str.strip()`: drop leading and trailing
whitespace. -/
def pyStrip (s : String) : String :=
  String.mk (((s.toList.dropWhile Char.isWhitespace).reverse.dropWhile
    Char.isWhitespace).reverse)

/-- Python `sub in s` (substring containment) over lists of characters. -/
def listContainsSub {α : Type} [DecidableEq α] (sub : List α) : List α → Bool
  | [] => sub.isEmpty
  | a :: as => sub.isPrefixOf (a :: as) || listContainsSub sub as

/-- Python `sub in s` on strings. -/
def strContains (s sub : String) : Bool := listContainsSub sub.toList s.toList

/-- `'phone' in col.lower()` (lines 79, 193). -/
def isPhoneName (n : String) : Bool := strContains (pyLower n) "phone"

/-- `'date' in col.lower() or col.lower() in ['dob', 'birth_date', 'birthdate']`
(line 242). -/
def isDateName (n : String) : Bool :=
  strContains (pyLower n) "date" ||
    (pyLower n == "dob" || pyLower n == "birth_date" || pyLower n == "birthdate")

/-- `'birth' in col.lower() or 'dob' in col.lower()` (lines 402, 446). -/
def isBirthName (n : String) : Bool :=
  strContains (pyLower n) "birth" || strContains (pyLower n) "dob"

/-- `'join' in col.lower() or 'hire' in col.lower() or 'start' in col.lower()`
(lines 345, 447, 506). -/
def isJoinName (n : String) : Bool :=
  strContains (pyLower n) "join" || strContains (pyLower n) "hire" ||
    strContains (pyLower n) "start"

/-- Whether pandas holds the column with `object` dtype after CSV ingestion:
an empty column, or one holding at least one string.  On a nonempty all-number
column the dtype is numeric and the `.str` accessor raises `AttributeError`. -/
def objectDtype (cs : List Cell) : Bool := cs.isEmpty || cs.any Cell.isStr

/-- The Python exceptions the detectors can raise. -/
inductive PyErr where
  | attributeError
  | typeError
deriving DecidableEq, Repr

/-- `series.str.lower().str.strip()` (line 92): raises `AttributeError` unless
the column has object dtype; string cells are lowercased and stripped, any
other cell becomes `NaN`. -/
def strLowerStrip (cs : List Cell) : Except PyErr (List (Option String)) :=
  if objectDtype cs then
    .ok (cs.map (fun c => match c with
      | .str s => some (pyStrip (pyLower s))
      | _ => none))
  else .error .attributeError

/-- A parsed pandas `Timestamp`/`datetime`, kept abstract: its day number on
the linear time axis together with the calendar fields the detectors read. -/
structure PDate where
  days : Int
  year : Int
  month : Nat
  day : Nat
deriving DecidableEq, Repr

/-- The external-library functions the validator calls, abstracted.  A fixed
`Env` corresponds to one run environment (one wall clock, one `phonenumbers`
and one `pandas` date parser). -/
structure Env where
  /-- `phonenumbers.parse(s, "US")`; `none` models `NumberParseException`. -/
  parsePhone : String → Option String
  /-- `phonenumbers.is_valid_number` on a parsed number. -/
  isValidNumber : String → Bool
  /-- `phonenumbers.format_number(·, PhoneNumberFormat.E164)`. -/
  formatE164 : String → String
  /-- `pd.to_datetime(s, errors='coerce')` for one string; `none` is `NaT`. -/
  parseDateStr : String → Option PDate
  /-- the same coercion applied to an integer cell. -/
  parseDateInt : Int → Option PDate
  /-- `datetime.now()` (one fixed reference time for the run). -/
  now : PDate
  /-- `datetime(y, 1, 1)`, used for the company founding date (line 367). -/
  yearStart : Int → PDate

/-- `pd.to_datetime(column, errors='coerce')` elementwise. -/
def toDatetime (env : Env) (cs : List Cell) : List (Option PDate) :=
  cs.map (fun c => match c with
    | .absent => none
    | .str s => env.parseDateStr s
    | .int n => env.parseDateInt n)

/-- Python `str(·)` on a cell (lines 140, 146, 150). -/
def strOfCell : Cell → String
  | .absent => "nan"
  | .str s => s
  | .int n => toString n

/-- `re.sub(r"\D", "", s)` (lines 146, 150): keep only digits. -/
def stripNonDigits (s : String) : String := String.mk (s.toList.filter Char.isDigit)

/-- Phone normalization: the body of the loop at lines 133-151.  Parse with
default region `"US"`; a valid number is formatted to E.164; an invalid number
or a `NumberParseException` falls back to stripping all non-digits; an empty
fallback or an absent input normalizes to `none`. -/
def normalizePhone (env : Env) (c : Cell) : Option String :=
  match c with
  | .absent => none
  | c =>
    let s := strOfCell c
    match env.parsePhone s with
    | some p =>
      if env.isValidNumber p then some (env.formatE164 p)
      else
        let d := stripNonDigits s
        if d = "" then none else some d
    | none =>
      let d := stripNonDigits s
      if d = "" then none else some d

/-- Round half to even at the integers, as Python `round`/numpy `.round()`
behave on exactly representable values. -/
def rhe (q : ℚ) : ℤ :=
  if q - (⌊q⌋ : ℚ) < 1/2 then ⌊q⌋
  else if 1/2 < q - (⌊q⌋ : ℚ) then ⌊q⌋ + 1
  else if ⌊q⌋ % 2 = 0 then ⌊q⌋ else ⌊q⌋ + 1

/-- Python `round(q, n)` in exact arithmetic. -/
def roundDec (n : ℕ) (q : ℚ) : ℚ := (rhe (q * (10 : ℚ) ^ n) : ℚ) / (10 : ℚ) ^ n

/-- Severity of an issue ('HIGH' / 'MEDIUM' / 'LOW'). -/
inductive Severity where
  | high | medium | low
deriving DecidableEq, Repr

/-- One entry of the contact-overlap list (lines 210-216). -/
structure Overlap where
  email : Cell
  phone : Cell
  phone_column : String
  record_count : Nat
  indices : List Nat
deriving DecidableEq, Repr

/-- The `examples` payloads the detectors build (each constructor is the dict
shape one detector appends). -/
inductive Ex where
  /-- a plain row dict (`.to_dict('records')` element). -/
  | record (r : List (String × Cell))
  /-- email duplicate group (lines 108-112). -/
  | emailGroup (email : String) (cnt : Nat) (records : List (List (String × Cell)))
  /-- phone duplicate group (lines 172-176). -/
  | phoneGroup (normalized_phone : String) (cnt : Nat)
      (records : List (List (String × Cell)))
  /-- contact-overlap entry (line 228 reuses the overlap dicts). -/
  | overlapGroup (o : Overlap)
  /-- age/birthdate inconsistency entry (lines 425-431); `difference` is
  `|stated - calculated|` when both are defined. -/
  | ageBirth (record_index : Nat) (stated_age : Cell) (calculated_age : Option Int)
      (birthdate : Cell) (difference : Option Nat)
  /-- young-employee entry (lines 484-489). -/
  | temporal (record_index : Nat) (birth_date : Option PDate) (join_date : Option PDate)
      (age_at_join : ℚ)
  /-- employment-duration entry (lines 626-630). -/
  | duration (record_index : Nat) (join_date : Option PDate) (duration_years : ℚ)
  /-- bulk-import spike entry (lines 545-550). -/
  | spike (period : Int × Nat) (cnt : Nat) (percentage_of_total : ℚ)
      (sample_records : List (List (String × Cell)))
deriving DecidableEq, Repr

/-- `ValidationIssue` (lines 15-24). -/
structure Issue where
  category : String
  severity : Severity
  description : String
  affected_records : List Nat
  examples : List Ex
  count : Nat
  recommendation : String
deriving DecidableEq, Repr

/-- `df[series == v].index.tolist()` for an option-valued (normalized) series:
positions whose value is present and equals `v` (lines 103, 167). -/
def matchIndices {α : Type} [DecidableEq α] (xs : List (Option α)) (v : α) : List Nat :=
  (List.range xs.length).filter (fun i => xs.getD i none = some v)

/-- `df[df[col] == v].index.tolist()` for raw cell equality; `NaN` never
compares equal (lines 204, 285). -/
def cellMatchIndices (cells : List Cell) (v : Cell) : List Nat :=
  (List.range cells.length).filter (fun i => !v.isna && cells.getD i .absent = v)

/-- `_check_duplicate_emails` (lines 86-122). -/
def checkDuplicateEmails (t : Table) : Except PyErr (List Issue) :=
  match t.getCol "email" with
  | none => .ok []
  | some cells => do
    let norm ← strLowerStrip cells
    let dups := (valueCounts (norm.filterMap id)).filter (fun p => 1 < p.2)
    if dups.isEmpty then return []
    let affected := dups.flatMap (fun p => matchIndices norm p.1)
    return [{ category := "Duplicate Email Addresses"
              severity := .high
              description := "Found " ++ toString dups.length ++
                " email addresses used by multiple records"
              affected_records := affected
              examples := (dups.map (fun p =>
                Ex.emailGroup p.1 p.2
                  (((matchIndices norm p.1).map t.row).take 3))).take 5
              count := affected.length
              recommendation := "Review duplicate emails for data entry errors or legitimate shared accounts. Consider implementing unique email constraints." }]

/-- `_check_duplicate_phones` (lines 124-186) for one phone-like column: the
whole body of the per-value loop is covered by `try/except
NumberParseException`, so this detector never raises. -/
def checkDuplicatePhones (env : Env) (t : Table) (phoneCol : String) : List Issue :=
  match t.getCol phoneCol with
  | none => []
  | some cells =>
    let norm := cells.map (normalizePhone env)
    let dups := (valueCounts (norm.filterMap id)).filter (fun p => 1 < p.2)
    if dups.isEmpty then []
    else
      let affected := dups.flatMap (fun p => matchIndices norm p.1)
      [{ category := "Duplicate Phone Numbers (" ++ phoneCol ++ ")"
         severity := .high
         description := "Found " ++ toString dups.length ++
           " phone numbers used by multiple records"
         affected_records := affected
         examples := (dups.map (fun p =>
           Ex.phoneGroup p.1 p.2
             (((matchIndices norm p.1).map t.row).take 3))).take 5
         count := affected.length
         recommendation := "Review duplicate phone numbers for data entry errors or shared contact information. Consider business rules for shared phones." }]

/-- The overlap-collection loop of `_check_contact_overlap` (lines 198-216):
iterate the distinct raw email values (`df['email'].unique()`, `NaN` skipped);
for a group of more than one record and each phone-like column, record an
overlap entry when the group's non-absent phone values have exactly one
distinct value (`dropna().unique()` of length 1, lines 208-209). -/
def overlapsFor (t : Table) (emailCells : List Cell) (pcols : List String) :
    List Overlap :=
  (uniqueFirst emailCells).flatMap (fun e =>
    if e.isna then []
    else
      let idxs := cellMatchIndices emailCells e
      if 1 < idxs.length then
        pcols.filterMap (fun pc =>
          match t.getCol pc with
          | none => none
          | some pcells =>
            match uniqueFirst (dropNa (idxs.map (fun i => pcells.getD i .absent))) with
            | [p] => some { email := e, phone := p, phone_column := pc,
                            record_count := idxs.length, indices := idxs }
            | _ => none)
      else [])

/-- `_check_contact_overlap` (lines 188-231).  Grouping is by the *raw* email
cell (`df['email'] == email`, line 204 — no normalization). -/
def checkContactOverlap (t : Table) : List Issue :=
  match t.getCol "email" with
  | none => []
  | some emailCells =>
    let pcols := t.colNames.filter isPhoneName
    if pcols.isEmpty then []
    else
      let overlaps := overlapsFor t emailCells pcols
      if overlaps.isEmpty then []
      else
        let affected := overlaps.flatMap Overlap.indices
        [{ category := "Complete Contact Information Overlap"
           severity := .medium
           description := "Found " ++ toString overlaps.length ++
             " cases where multiple records share both email and phone"
           affected_records := affected
           examples := (overlaps.take 5).map Ex.overlapGroup
           count := affected.length
           recommendation := "These may be legitimate duplicates or data entry errors. Review for consolidation opportunities." }]

/-- `series % 5 == 0` (lines 256, 260, 266): raises `TypeError` when a string
value is present; absent values give `NaN`, which compares unequal to `0`. -/
def seriesMod5Eq0 (cs : List Cell) : Except PyErr (List Bool) :=
  if cs.any Cell.isStr then .error .typeError
  else .ok (cs.map (fun c => match c with
    | .int n => n % 5 == 0
    | _ => false))

/-- `_analyze_age_patterns` (lines 246-289).  Thresholds (`> 40`%, `> 10`% of
records on one age with more than 10 distinct ages) are evaluated exactly
over the integers. -/
def analyzeAgePatterns (t : Table) : Except PyErr (List Issue) :=
  match t.getCol "age" with
  | none => .ok []
  | some cells => do
    let ages := dropNa cells
    if ages.isEmpty then return []
    let roundedMask ← seriesMod5Eq0 ages
    let roundedCount := roundedMask.count true
    let i1 ←
      if 40 * ages.length < 100 * roundedCount then do
        let fullMask ← seriesMod5Eq0 cells
        let affected := (List.range cells.length).filter (fun i => fullMask.getD i false)
        pure [{ category := "Suspicious Age Rounding"
                severity := .medium
                description := toString (roundDec 1 (100 * (roundedCount : ℚ) / ages.length)) ++
                  "% of ages are rounded to multiples of 5, suggesting artificial data"
                affected_records := affected
                examples := (affected.take 10).map (fun i => Ex.record (t.row i))
                count := roundedCount
                recommendation := "Review age data collection process. Consider if ages were estimated rather than calculated from birthdates." }]
      else pure []
    let ageCounts := valueCounts ages
    let i2 :=
      match ageCounts with
      | [] => []
      | (mca, _) :: _ =>
        let maxCount := (ageCounts.map Prod.snd).foldr max 0
        if decide (10 * ages.length < 100 * maxCount) && decide (10 < ageCounts.length) then
          let affected := cellMatchIndices cells mca
          [{ category := "Excessive Age Clustering"
             severity := .medium
             description := "Age " ++ toString (repr mca) ++ " appears " ++
               toString maxCount ++ " times (" ++
               toString (roundDec 1 (100 * (maxCount : ℚ) / ages.length)) ++ "% of records)"
             affected_records := affected
             examples := (affected.take 10).map (fun i => Ex.record (t.row i))
             count := maxCount
             recommendation := "Investigate why this specific age is so common. May indicate default value usage or data entry errors." }]
        else []
    return i1 ++ i2

/-- Positions whose parsed date falls on month-day `01-01`
(`dt.strftime('%m-%d') == '01-01'`, lines 306, 310, 316). -/
def jan1Indices (parsed : List (Option PDate)) : List Nat :=
  (List.range parsed.length).filter (fun i =>
    match parsed.getD i none with
    | some d => d.month == 1 && d.day == 1
    | none => false)

/-- `_analyze_date_clustering` (lines 291-338) for one date-like column.  The
`try` at line 297 only guards `pd.to_datetime(·, errors='coerce')`, which
never raises; the detector is total. -/
def analyzeDateClustering (env : Env) (t : Table) (col : String) : List Issue :=
  match t.getCol col with
  | none => []
  | some cells =>
    let parsed := toDatetime env cells
    let dates := parsed.filterMap id
    if dates.isEmpty then []
    else
      let jan1 := dates.filter (fun d => d.month == 1 && d.day == 1)
      let i1 :=
        if 20 * dates.length < 100 * jan1.length then
          let affected := jan1Indices parsed
          [{ category := "Suspicious Date Clustering - January 1st (" ++ col ++ ")"
             severity := .medium
             description := toString (roundDec 1 (100 * (jan1.length : ℚ) / dates.length)) ++
               "% of " ++ col ++ " values are January 1st, suggesting default values"
             affected_records := affected
             examples := (affected.take 10).map (fun i => Ex.record (t.row i))
             count := jan1.length
             recommendation := "Review data collection process. January 1st clustering often indicates missing or unknown dates filled with defaults." }]
        else []
      let dateCounts := valueCounts dates
      let i2 :=
        match dateCounts with
        | [] => []
        | (mcd, _) :: _ =>
          let maxCount := (dateCounts.map Prod.snd).foldr max 0
          if decide (5 * dates.length < 100 * maxCount) && decide (20 < dateCounts.length) then
            let affected := matchIndices parsed mcd
            [{ category := "Excessive Date Clustering (" ++ col ++ ")"
               severity := .medium
               description := "Date " ++ toString (repr mcd) ++ " appears " ++
                 toString maxCount ++ " times (" ++
                 toString (roundDec 1 (100 * (maxCount : ℚ) / dates.length)) ++ "% of records)"
               affected_records := affected
               examples := (affected.take 10).map (fun i => Ex.record (t.row i))
               count := maxCount
               recommendation := "Investigate clustering around this specific date. May indicate bulk data imports or system-generated dates." }]
          else []
      i1 ++ i2

/-- `_validate_join_dates` (lines 356-397) for one join-like column: flags
parsed dates strictly after `datetime.now()` and strictly before
`datetime(company_founding_year, 1, 1)`; `NaT` satisfies neither. -/
def validateJoinDates (env : Env) (fy : Int) (t : Table) (col : String) : List Issue :=
  match t.getCol col with
  | none => []
  | some cells =>
    let jd := toDatetime env cells
    let future := (List.range cells.length).filter (fun i =>
      match jd.getD i none with
      | some d => env.now.days < d.days
      | none => false)
    let i1 :=
      if future.isEmpty then []
      else
        [{ category := "Future Join Dates (" ++ col ++ ")"
           severity := .high
           description := "Found " ++ toString future.length ++
             " records with join dates in the future"
           affected_records := future
           examples := (future.take 10).map (fun i => Ex.record (t.row i))
           count := future.length
           recommendation := "Review and correct future join dates. These are likely data entry errors." }]
    let founding := env.yearStart fy
    let early := (List.range cells.length).filter (fun i =>
      match jd.getD i none with
      | some d => d.days < founding.days
      | none => false)
    let i2 :=
      if early.isEmpty then []
      else
        [{ category := "Join Dates Before Company Founding (" ++ col ++ ")"
           severity := .high
           description := "Found " ++ toString early.length ++
             " records with join dates before company founding (" ++ toString fy ++ ")"
           affected_records := early
           examples := (early.take 10).map (fun i => Ex.record (t.row i))
           count := early.length
           recommendation := "Verify company founding year or correct impossible join dates." }]
    i1 ++ i2

/-- `((current_date - birth_dates).dt.days / 365.25).round().astype('Int64')`
(line 417), exactly over `ℚ` with half-to-even rounding. -/
def calculatedAges (env : Env) (births : List (Option PDate)) : List (Option Int) :=
  births.map (fun ob => ob.map (fun b => rhe ((env.now.days - b.days : ℚ) * 4 / 1461)))

/-- `_validate_age_birthdate_consistency` (lines 399-441).  The subtraction
`ages - calculated_ages` (line 420) sits outside the `try` and raises
`TypeError` when a string age is present; `NaN`/`NaT` rows compare `False`. -/
def validateAgeBirthdateConsistency (env : Env) (t : Table) : Except PyErr (List Issue) :=
  match t.colNames.filter isBirthName, t.getCol "age" with
  | [], _ => .ok []
  | _, none => .ok []
  | bc :: _, some ages => do
    let birthCells := (t.getCol bc).getD []
    let births := toDatetime env birthCells
    let calcA := calculatedAges env births
    if ages.any Cell.isStr then throw .typeError
    let inconsistent := (List.range ages.length).filter (fun i =>
      match ages.getD i .absent, calcA.getD i none with
      | .int n, some c => 1 < (n - c).natAbs
      | _, _ => false)
    if inconsistent.isEmpty then return []
    return [{ category := "Age-Birthdate Inconsistency"
              severity := .medium
              description := "Found " ++ toString inconsistent.length ++
                " records where stated age doesn't match calculated age from birthdate"
              affected_records := inconsistent
              examples := (inconsistent.take 10).map (fun i =>
                Ex.ageBirth i (ages.getD i .absent) (calcA.getD i none)
                  (birthCells.getD i .absent)
                  (match ages.getD i .absent, calcA.getD i none with
                   | .int n, some c => some (n - c).natAbs
                   | _, _ => none))
              count := inconsistent.length
              recommendation := "Review age calculation logic or data entry processes. Consider using birthdate as single source of truth for age." }]

/-- The under-16 test of line 478: `(join - birth).days / 365.25 < 16` holds
exactly when the day difference is below `16 · 365.25 = 5844` days. -/
def youngAtJoin (b j : PDate) : Bool := (j.days - b.days) * 4 < 16 * 1461

/-- `_validate_temporal_relationships` (lines 443-499): uses the first
birth-like and first join-like column; flags join strictly before birth
(HIGH) and age-at-join under 16 years (MEDIUM), both requiring both dates to
parse. -/
def validateTemporalRelationships (env : Env) (t : Table) : List Issue :=
  match t.colNames.filter isBirthName, t.colNames.filter isJoinName with
  | bc :: _, jc :: _ =>
    let births := toDatetime env ((t.getCol bc).getD [])
    let joins := toDatetime env ((t.getCol jc).getD [])
    let n := births.length
    let impossible := (List.range n).filter (fun i =>
      match births.getD i none, joins.getD i none with
      | some b, some j => j.days < b.days
      | _, _ => false)
    let i1 :=
      if impossible.isEmpty then []
      else
        [{ category := "Impossible Date Relationships"
           severity := .high
           description := "Found " ++ toString impossible.length ++
             " records where join date is before birth date"
           affected_records := impossible
           examples := (impossible.take 10).map (fun i => Ex.record (t.row i))
           count := impossible.length
           recommendation := "Critical data error: Join dates cannot be before birth dates. Review and correct these records immediately." }]
    let young := (List.range n).filter (fun i =>
      match births.getD i none, joins.getD i none with
      | some b, some j => youngAtJoin b j
      | _, _ => false)
    let i2 :=
      if young.isEmpty then []
      else
        [{ category := "Unreasonably Young Employees"
           severity := .medium
           description := "Found " ++ toString young.length ++
             " records where employees joined before age 16"
           affected_records := young
           examples := (young.take 10).map (fun i =>
             Ex.temporal i (births.getD i none) (joins.getD i none)
               (roundDec 1 (((((joins.getD i none).map PDate.days).getD 0 -
                 (((births.getD i none).map PDate.days).getD 0)) : ℚ) * 4 / 1461)))
           count := young.length
           recommendation := "Review hiring policies and data accuracy. Consider if these are data entry errors or special cases (internships, etc.)." }]
    i1 ++ i2
  | _, _ => []

/-- Positions whose parsed date falls in calendar month `per`
(`.dt.to_period('M') == period`, lines 544, 554). -/
def periodIndices (parsed : List (Option PDate)) (per : Int × Nat) : List Nat :=
  (List.range parsed.length).filter (fun i =>
    match parsed.getD i none with
    | some d => (d.year, d.month) = per
    | none => false)

/-- `(year, month)` ordering used by `value_counts().sort_index()` (line 531). -/
def periodLe (a b : (Int × Nat) × Nat) : Bool :=
  a.1.1 < b.1.1 || (a.1.1 == b.1.1 && a.1.2 ≤ b.1.2)

/-- `_detect_bulk_import_patterns` (lines 517-565) for one join-like column.
The spike test `count > mean + 2·std` (sample standard deviation, `ddof = 1`)
is evaluated exactly over `ℚ` as `mean < count ∧ (count - mean)² > 4·var`. -/
def detectBulkImportPatterns (env : Env) (t : Table) (col : String) : List Issue :=
  match t.getCol col with
  | none => []
  | some cells =>
    let parsed := toDatetime env cells
    let dates := parsed.filterMap id
    if dates.isEmpty then []
    else
      let monthly := List.insertionSort (fun a b => periodLe a b = true)
        (valueCounts (dates.map (fun d => (d.year, d.month))))
      if monthly.length ≤ 1 then []
      else
        let m : ℚ := monthly.length
        let mean : ℚ := ((monthly.map (fun p => (p.2 : ℚ))).sum) / m
        let varS : ℚ := ((monthly.map (fun p => ((p.2 : ℚ) - mean) ^ 2)).sum) / (m - 1)
        let spikes := monthly.filter (fun p =>
          decide (mean < (p.2 : ℚ)) && decide (4 * varS < ((p.2 : ℚ) - mean) ^ 2))
        if spikes.isEmpty then []
        else
          let affected := spikes.flatMap (fun p => periodIndices parsed p.1)
          [{ category := "Bulk Import Pattern Detection (" ++ col ++ ")"
             severity := .low
             description := "Detected " ++ toString spikes.length ++
               " months with unusually high " ++ col ++ " activity, suggesting bulk imports"
             affected_records := affected
             examples := (spikes.take 5).map (fun p =>
               Ex.spike p.1 p.2 (roundDec 1 (100 * (p.2 : ℚ) / dates.length))
                 (((periodIndices parsed p.1).map t.row).take 3))
             count := (spikes.map Prod.snd).sum
             recommendation := "Review data import processes. Bulk imports may indicate data migration or system changes that should be documented." }]

/-- `_validate_age_ranges` (lines 567-602): `df['age'] < 16` / `> 80` raise
`TypeError` on string ages; absent ages satisfy neither comparison. -/
def validateAgeRanges (t : Table) : Except PyErr (List Issue) :=
  match t.getCol "age" with
  | none => .ok []
  | some cells =>
    if cells.any Cell.isStr then .error .typeError
    else
      let tooYoung := (List.range cells.length).filter (fun i =>
        match cells.getD i .absent with
        | .int n => n < 16
        | _ => false)
      let i1 :=
        if tooYoung.isEmpty then []
        else
          [{ category := "Unreasonably Young Ages"
             severity := .high
             description := "Found " ++ toString tooYoung.length ++
               " records with ages under 16"
             affected_records := tooYoung
             examples := (tooYoung.take 10).map (fun i => Ex.record (t.row i))
             count := tooYoung.length
             recommendation := "Review minimum age policies and data accuracy. Ages under 16 are unusual for employment records." }]
      let tooOld := (List.range cells.length).filter (fun i =>
        match cells.getD i .absent with
        | .int n => 80 < n
        | _ => false)
      let i2 :=
        if tooOld.isEmpty then []
        else
          [{ category := "Unreasonably Old Ages"
             severity := .medium
             description := "Found " ++ toString tooOld.length ++
               " records with ages over 80"
             affected_records := tooOld
             examples := (tooOld.take 10).map (fun i => Ex.record (t.row i))
             count := tooOld.length
             recommendation := "Review retirement policies and data accuracy. Ages over 80 may indicate data entry errors or special employment arrangements." }]
      .ok (i1 ++ i2)

/-- `_analyze_employment_duration` (lines 604-643): first join-like column;
`(now - join).days / 365.25 > 50` holds exactly when the day difference
exceeds `18262.5` days.  The whole body is wrapped in `try/except Exception`
(line 642), so this detector never raises. -/
def analyzeEmploymentDuration (env : Env) (t : Table) : List Issue :=
  match t.colNames.filter isJoinName with
  | [] => []
  | jc :: _ =>
    let joins := toDatetime env ((t.getCol jc).getD [])
    let veryLong := (List.range joins.length).filter (fun i =>
      match joins.getD i none with
      | some d => 36525 < 2 * (env.now.days - d.days)
      | none => false)
    if veryLong.isEmpty then []
    else
      [{ category := "Unusually Long Employment Duration"
         severity := .medium
         description := "Found " ++ toString veryLong.length ++
           " records with employment duration over 50 years"
         affected_records := veryLong
         examples := (veryLong.take 10).map (fun i =>
           Ex.duration i (joins.getD i none)
             (roundDec 1 ((env.now.days - (((joins.getD i none).map PDate.days).getD 0) : ℚ)
               * 4 / 1461)))
         count := veryLong.length
         recommendation := "Review join dates for accuracy. Employment over 50 years may indicate data entry errors or legacy system issues." }]

/-- `summary` block of the report (lines 661-670). -/
structure Summary where
  total_records : Nat
  total_issues_found : Nat
  high_severity_issues : Nat
  medium_severity_issues : Nat
  low_severity_issues : Nat
  total_affected_records : Nat
  data_quality_score : ℚ
  validation_timestamp : PDate
deriving DecidableEq, Repr

/-- One element of `detailed_issues` (lines 675-683). -/
structure DetailedIssue where
  category : String
  severity : Severity
  description : String
  count : Nat
  affected_percentage : ℚ
  examples : List Ex
  recommendation : String
deriving DecidableEq, Repr

/-- One recommendation block (lines 690-710). -/
structure RecBlock where
  priority : Severity
  title : String
  items : List String
deriving DecidableEq, Repr

/-- The dictionary returned by `_generate_validation_report` (lines 712-722). -/
structure Report where
  summary : Summary
  detailed_issues : List DetailedIssue
  recommendations : List RecBlock
  validation_passed : Bool
  issues_high : List Issue
  issues_medium : List Issue
  issues_low : List Issue
deriving DecidableEq, Repr

/-- `_generate_validation_report` (lines 645-722).  `total_affected` is the
cardinality of `set().union(*affected_records lists)`; the score is
`max(0, 100 - affected/total·100)` (or `100` on an empty table) rounded to one
decimal.  `affected_percentage` divides by `total_records`; on a zero-record
table Python would raise `ZeroDivisionError` there, but that loop only runs
when an issue exists and no detector emits an issue on an empty table (proved
below), so `ℚ` division (yielding `0`) is observationally faithful. -/
def generateReport (env : Env) (t : Table) (issues : List Issue) : Report :=
  let high := issues.filter (fun i => i.severity == Severity.high)
  let med := issues.filter (fun i => i.severity == Severity.medium)
  let low := issues.filter (fun i => i.severity == Severity.low)
  let totalRecords := t.nRows
  let totalAffected := (issues.flatMap Issue.affected_records).dedup.length
  let qualityScore : ℚ :=
    if 0 < totalRecords then
      max 0 (100 - (totalAffected : ℚ) / (totalRecords : ℚ) * 100)
    else 100
  { summary := { total_records := totalRecords
                 total_issues_found := issues.length
                 high_severity_issues := high.length
                 medium_severity_issues := med.length
                 low_severity_issues := low.length
                 total_affected_records := totalAffected
                 data_quality_score := roundDec 1 qualityScore
                 validation_timestamp := env.now }
    detailed_issues := issues.map (fun i =>
      { category := i.category
        severity := i.severity
        description := i.description
        count := i.count
        affected_percentage := roundDec 2 ((i.count : ℚ) / (totalRecords : ℚ) * 100)
        examples := i.examples
        recommendation := i.recommendation })
    recommendations :=
      (if high.isEmpty then [] else
        [{ priority := .high
           title := "Critical Data Issues Requiring Immediate Attention"
           items := high.map Issue.recommendation }]) ++
      (if med.isEmpty then [] else
        [{ priority := .medium
           title := "Data Quality Improvements"
           items := med.map Issue.recommendation }]) ++
      (if low.isEmpty then [] else
        [{ priority := .low
           title := "Process Improvements and Monitoring"
           items := low.map Issue.recommendation }])
    validation_passed := high.isEmpty
    issues_high := high
    issues_medium := med
    issues_low := low }

/-- Issue accumulation with exception propagation: once a detector has raised,
nothing further runs; otherwise its issues are appended to `self.issues`. -/
def step (acc : List Issue × Option PyErr) (r : Except PyErr (List Issue)) :
    List Issue × Option PyErr :=
  match acc.2 with
  | some _ => acc
  | none =>
    match r with
    | .ok js => (acc.1 ++ js, none)
    | .error e => (acc.1, some e)

/-- The detector sequence of `validate_dataset` (lines 59-62), in source call
order with the call-site guards of lines 75-84, 238-244, 344-354, 505-515:
issues accumulated in `self.issues` plus the first uncaught exception, if
any. -/
def runDetectors (env : Env) (fy : Int) (t : Table) : List Issue × Option PyErr :=
  let s1 := step ([], none) (checkDuplicateEmails t)
  let s2 := step s1 (.ok ((t.colNames.filter isPhoneName).flatMap (checkDuplicatePhones env t)))
  let s3 := step s2 (.ok (checkContactOverlap t))
  let s4 := step s3 (analyzeAgePatterns t)
  let s5 := step s4 (.ok ((t.colNames.filter isDateName).flatMap (analyzeDateClustering env t)))
  let s6 := step s5 (.ok ((t.colNames.filter isJoinName).flatMap (validateJoinDates env fy t)))
  let s7 :=
    if t.hasCol "age" && t.colNames.any isBirthName then
      step s6 (validateAgeBirthdateConsistency env t)
    else s6
  let s8 := step s7 (.ok (validateTemporalRelationships env t))
  let s9 := step s8 (.ok ((t.colNames.filter isJoinName).flatMap (detectBulkImportPatterns env t)))
  let s10 :=
    if t.hasCol "age" then step s9 (validateAgeRanges t) else s9
  step s10 (.ok (analyzeEmploymentDuration env t))

/-- The mutable validator object: `__init__` stores the founding year, an
issue list, and the current year (lines 32-41; `current_year` is never read
afterwards). -/
structure Validator where
  company_founding_year : Int
  issues : List Issue
  current_year : Int
deriving DecidableEq, Repr

/-- `validate_dataset` (lines 43-68): clears `self.issues` (line 56), runs the
detector families, and builds the report.  There is no `try/except` around
lines 59-65, so a detector exception propagates to the caller, leaving the
issues accumulated so far on the validator. -/
def validateDataset (env : Env) (v : Validator) (t : Table) :
    Except PyErr Report × Validator :=
  let (issues, err) := runDetectors env v.company_founding_year t
  let v' := { v with issues := issues }
  match err with
  | some e => (.error e, v')
  | none => (.ok (generateReport env t issues), v')

/-- The contact-overlap rule in the spec's own words, for comparison with
`checkContactOverlap`: "for each distinct *normalized* email with more than
one record, check whether all those records also share an identical phone
value (for each phone column)".  Email normalization is the spec's
lowercase/strip; a group qualifies for a phone column when all its records
carry one and the same present phone value. -/
def specContactOverlapGroups (t : Table) : List (String × String × List Nat) :=
  match t.getCol "email" with
  | none => []
  | some emailCells =>
    let pcols := t.colNames.filter isPhoneName
    let norm := emailCells.map (fun c => match c with
      | .str s => some (pyStrip (pyLower s))
      | _ => none)
    (uniqueFirst (norm.filterMap id)).flatMap (fun v =>
      let idxs := matchIndices norm v
      if 1 < idxs.length then
        pcols.filterMap (fun pc =>
          match t.getCol pc with
          | none => none
          | some pcells =>
            match idxs.map (fun i => pcells.getD i .absent) with
            | [] => none
            | p :: ps =>
              if !p.isna && ps.all (fun q => q == p) then some (v, pc, idxs) else none)
      else [])

/-! ### Concrete run environment and tables used by witnesses and
counterexamples -/

/-- A fixed date parser: the few ISO dates the example tables use. -/
def testParseDate (s : String) : Option PDate :=
  if s = "2000-01-01" then some ⟨10957, 2000, 1, 1⟩
  else if s = "2005-01-01" then some ⟨12784, 2005, 1, 1⟩
  else if s = "2010-01-01" then some ⟨14610, 2010, 1, 1⟩
  else none

/-- A concrete run environment: a `phonenumbers` stub on which every string
fails to parse (exercising the non-digit-stripping fallback), the date parser
above, and a fixed reference time in 2023. -/
def testEnv : Env where
  parsePhone := fun _ => none
  isValidNumber := fun _ => false
  formatE164 := fun s => s
  parseDateStr := testParseDate
  parseDateInt := fun _ => none
  now := ⟨19700, 2023, 12, 9⟩
  yearStart := fun y => ⟨365 * (y - 1970), y, 1, 1⟩

/-- A freshly constructed validator (founding year 1990, as the default). -/
def v0 : Validator := { company_founding_year := 1990, issues := [], current_year := 2023 }

/-- A syntactically valid two-row table whose `email` column is wholly
numeric, hence ingested with integer dtype. -/
def numericEmailTable : Table := ⟨[⟨"email", [.int 1, .int 1]⟩]⟩

/-- Two records sharing one email and two phone columns. -/
def overlapTable : Table :=
  ⟨[⟨"email", [.str "a@x.com", .str "a@x.com"]⟩,
    ⟨"phone1", [.str "x1", .str "x1"]⟩,
    ⟨"phone2", [.str "x2", .str "x2"]⟩]⟩

/-- Two records whose emails agree only after normalization, with identical
phones. -/
def rawEmailTable : Table :=
  ⟨[⟨"email", [.str "A@x.com", .str "a@x.com"]⟩,
    ⟨"phone", [.str "x1", .str "x1"]⟩]⟩

/-- A zero-row table with an (object-dtype) email column. -/
def emptyTable : Table := ⟨[⟨"email", []⟩]⟩

/-- Birth/join columns: record 0 joins at about age ten, record 1 joins
before being born. -/
def temporalTable : Table :=
  ⟨[⟨"birth_date", [.str "2000-01-01", .str "2010-01-01"]⟩,
    ⟨"join_date", [.str "2010-01-01", .str "2005-01-01"]⟩]⟩

/-- A benign table (string email, integer ages) on which no detector can
raise. -/
def benignTable : Table :=
  ⟨[⟨"email", [.str "a@x.com", .str "b@x.com"]⟩,
    ⟨"age", [.int 30, .int 40]⟩]⟩

/-! ## List infrastructure lemmas -/

theorem mem_uniqueFirstAux {α : Type} [DecidableEq α] (l : List α) :
    ∀ (seen : List α) (a : α), a ∈ uniqueFirstAux l seen ↔ a ∈ l ∧ a ∉ seen := by
  induction l with
  | nil => intro seen a; simp [uniqueFirstAux]
  | cons b bs ih =>
    intro seen a
    rw [uniqueFirstAux]
    by_cases hb : b ∈ seen
    · rw [if_pos hb, ih]
      constructor
      · rintro ⟨h1, h2⟩
        exact ⟨List.mem_cons_of_mem _ h1, h2⟩
      · rintro ⟨h1, h2⟩
        rcases List.mem_cons.1 h1 with rfl | h1
        · exact absurd hb h2
        · exact ⟨h1, h2⟩
    · rw [if_neg hb]
      by_cases hab : a = b
      · subst hab
        simp [hb]
      · simp only [List.mem_cons, hab, false_or, ih]

theorem mem_uniqueFirst {α : Type} [DecidableEq α] (l : List α) (a : α) :
    a ∈ uniqueFirst l ↔ a ∈ l := by
  rw [uniqueFirst, mem_uniqueFirstAux]
  simp

theorem nodup_uniqueFirstAux {α : Type} [DecidableEq α] (l : List α) :
    ∀ seen : List α, (uniqueFirstAux l seen).Nodup := by
  induction l with
  | nil => intro seen; simp [uniqueFirstAux]
  | cons b bs ih =>
    intro seen
    rw [uniqueFirstAux]
    by_cases hb : b ∈ seen
    · rw [if_pos hb]; exact ih seen
    · rw [if_neg hb]
      refine List.nodup_cons.2 ⟨fun hmem => ?_, ih _⟩
      exact ((mem_uniqueFirstAux bs (b :: seen) b).1 hmem).2 (List.mem_cons_self ..)

theorem nodup_uniqueFirst {α : Type} [DecidableEq α] (l : List α) :
    (uniqueFirst l).Nodup :=
  nodup_uniqueFirstAux l []

theorem valueCounts_perm {α : Type} [DecidableEq α] (l : List α) :
    List.Perm (valueCounts l) ((uniqueFirst l).map (fun v => (v, l.count v))) :=
  List.perm_insertionSort _ _

theorem mem_valueCounts {α : Type} [DecidableEq α] {l : List α} {p : α × Nat} :
    p ∈ valueCounts l ↔ p.1 ∈ l ∧ p.2 = l.count p.1 := by
  rw [(valueCounts_perm l).mem_iff, List.mem_map]
  constructor
  · rintro ⟨v, hv, rfl⟩
    exact ⟨(mem_uniqueFirst l v).1 hv, rfl⟩
  · rintro ⟨h1, h2⟩
    exact ⟨p.1, (mem_uniqueFirst l p.1).2 h1, by rw [← h2]⟩

theorem nodup_keys_valueCounts {α : Type} [DecidableEq α] (l : List α) :
    ((valueCounts l).map Prod.fst).Nodup := by
  have hperm : List.Perm ((valueCounts l).map Prod.fst)
      (((uniqueFirst l).map (fun v => (v, l.count v))).map Prod.fst) :=
    (valueCounts_perm l).map _
  refine hperm.nodup_iff.2 ?_
  rw [List.map_map]
  have hid : (Prod.fst ∘ fun v : α => (v, l.count v)) = id := by funext v; rfl
  rw [hid, List.map_id]
  exact nodup_uniqueFirst l

theorem sorted_valueCounts {α : Type} [DecidableEq α] (l : List α) :
    (valueCounts l).Sorted (fun a b => b.2 ≤ a.2) := by
  haveI : IsTotal (α × Nat) (fun a b => b.2 ≤ a.2) := ⟨fun a b => le_total b.2 a.2⟩
  haveI : IsTrans (α × Nat) (fun a b => b.2 ≤ a.2) :=
    ⟨fun _ _ _ h1 h2 => le_trans h2 h1⟩
  exact List.sorted_insertionSort _ _

/-- The first entry of a nonempty `valueCounts` has maximal multiplicity. -/
theorem head_valueCounts_max {α : Type} [DecidableEq α] {l : List α} {v : α} {c : Nat}
    {rest : List (α × Nat)} (h : valueCounts l = (v, c) :: rest) :
    ∀ q ∈ valueCounts l, q.2 ≤ c := by
  intro q hq
  have hs := sorted_valueCounts l
  rw [h] at hs hq
  rcases List.mem_cons.1 hq with rfl | hq
  · exact le_refl _
  · exact (List.sorted_cons.1 hs).1 q hq

theorem foldr_max_le {l : List Nat} {a : Nat} (h : ∀ x ∈ l, x ≤ a) :
    l.foldr max 0 ≤ a := by
  induction l with
  | nil => exact Nat.zero_le _
  | cons b bs ih =>
    simp only [List.foldr_cons]
    exact max_le (h b (List.mem_cons_self ..))
      (ih (fun x hx => h x (List.mem_cons_of_mem _ hx)))

theorem le_foldr_max {l : List Nat} {a : Nat} (ha : a ∈ l) :
    a ≤ l.foldr max 0 := by
  induction l with
  | nil => cases ha
  | cons b bs ih =>
    simp only [List.foldr_cons]
    rcases List.mem_cons.1 ha with rfl | ha
    · exact le_max_left _ _
    · exact le_trans (ih ha) (le_max_right _ _)

theorem foldr_max_eq {l : List Nat} {a : Nat} (ha : a ∈ l) (h : ∀ x ∈ l, x ≤ a) :
    l.foldr max 0 = a :=
  le_antisymm (foldr_max_le h) (le_foldr_max ha)

/-- Enumeration: counting positions of `range` whose entry satisfies `p`
equals `countP p`. -/
theorem length_filter_range_getD {α : Type} (l : List α) (d : α) (p : α → Bool) :
    ((List.range l.length).filter (fun i => p (l.getD i d))).length = l.countP p := by
  induction l with
  | nil => simp
  | cons a as ih =>
    have hcomp : ((fun i => p ((a :: as).getD i d)) ∘ Nat.succ) =
        fun i => p (as.getD i d) := by
      funext i; rfl
    rw [List.length_cons, List.range_succ_eq_map, List.filter_cons, List.countP_cons]
    have h0 : (a :: as).getD 0 d = a := rfl
    rw [h0, List.filter_map, hcomp]
    by_cases hpa : p a
    · rw [if_pos hpa, if_pos hpa, List.length_cons, List.length_map, ih]
    · rw [if_neg hpa, if_neg hpa, List.length_map, ih]
      omega

theorem mem_filter_range_getD {α : Type} {l : List α} {d : α} {p : α → Bool} {i : Nat} :
    i ∈ (List.range l.length).filter (fun i => p (l.getD i d)) ↔
      i < l.length ∧ p (l.getD i d) := by
  simp [List.mem_filter, List.mem_range]

theorem mem_matchIndices {α : Type} [DecidableEq α] {xs : List (Option α)} {v : α} {i : Nat} :
    i ∈ matchIndices xs v ↔ i < xs.length ∧ xs.getD i none = some v := by
  simp [matchIndices, List.mem_filter, List.mem_range]

theorem nodup_matchIndices {α : Type} [DecidableEq α] (xs : List (Option α)) (v : α) :
    (matchIndices xs v).Nodup :=
  (List.nodup_range _).filter _

theorem disjoint_matchIndices {α : Type} [DecidableEq α] {xs : List (Option α)} {v w : α}
    (hvw : v ≠ w) : List.Disjoint (matchIndices xs v) (matchIndices xs w) := by
  intro i hv hw
  have h1 := (mem_matchIndices.1 hv).2
  have h2 := (mem_matchIndices.1 hw).2
  rw [h1] at h2
  exact hvw (Option.some_injective _ h2)

theorem length_matchIndices {α : Type} [DecidableEq α] (xs : List (Option α)) (v : α) :
    (matchIndices xs v).length = xs.count (some v) := by
  unfold matchIndices
  rw [length_filter_range_getD xs none (fun o => decide (o = some v)),
    List.count_eq_countP]
  apply List.countP_congr
  intro o _
  cases o <;> simp

theorem count_filterMap_id {α : Type} [DecidableEq α] (l : List (Option α)) (v : α) :
    (l.filterMap id).count v = l.count (some v) := by
  rw [List.count_filterMap]
  apply List.countP_congr
  intro o _
  cases o <;> simp

/-- Two duplicate-free lists with the same members have the same length. -/
theorem length_eq_of_nodup_mem_iff {α : Type} [DecidableEq α] {l1 l2 : List α}
    (h1 : l1.Nodup) (h2 : l2.Nodup) (h : ∀ a, a ∈ l1 ↔ a ∈ l2) :
    l1.length = l2.length := by
  rw [← List.toFinset_card_of_nodup h1, ← List.toFinset_card_of_nodup h2]
  congr 1
  ext a
  simp only [List.mem_toFinset]
  exact h a
/-! ## Duplicate-grouping lemmas (shared by email / phone / date detectors) -/

/-- Whether position-value `o` belongs to a duplicated group of the normalized
series `norm` (a present value occurring more than once). -/
def dupPred {α : Type} [DecidableEq α] (norm : List (Option α)) (o : Option α) : Bool :=
  match o with
  | some v => 1 < norm.count (some v)
  | none => false

theorem mem_dupGroups {α : Type} [DecidableEq α] {norm : List (Option α)} {v : α} {c : Nat} :
    (v, c) ∈ (valueCounts (norm.filterMap id)).filter (fun p => 1 < p.2) ↔
      some v ∈ norm ∧ c = norm.count (some v) ∧ 1 < c := by
  rw [List.mem_filter]
  simp only [mem_valueCounts, List.mem_filterMap, count_filterMap_id]
  constructor
  · rintro ⟨⟨⟨o, ho, rfl⟩, rfl⟩, h⟩
    exact ⟨ho, rfl, by simpa using h⟩
  · rintro ⟨h1, rfl, h2⟩
    exact ⟨⟨⟨some v, h1, rfl⟩, rfl⟩, by simpa using h2⟩

theorem nodup_dupGroups_keys {α : Type} [DecidableEq α] (norm : List (Option α)) :
    (((valueCounts (norm.filterMap id)).filter (fun p => 1 < p.2)).map Prod.fst).Nodup :=
  ((List.filter_sublist _).map _).nodup (nodup_keys_valueCounts _)

theorem nodup_dupAffected {α : Type} [DecidableEq α] (norm : List (Option α)) :
    (((valueCounts (norm.filterMap id)).filter (fun p => 1 < p.2)).flatMap
      (fun p => matchIndices norm p.1)).Nodup := by
  rw [List.nodup_flatMap]
  refine ⟨fun p _ => nodup_matchIndices _ _, ?_⟩
  have hkeys := nodup_dupGroups_keys norm
  rw [List.Nodup, List.pairwise_map] at hkeys
  exact hkeys.imp (fun h => disjoint_matchIndices h)

theorem mem_dupAffected {α : Type} [DecidableEq α] {norm : List (Option α)} {i : Nat} :
    i ∈ ((valueCounts (norm.filterMap id)).filter (fun p => 1 < p.2)).flatMap
      (fun p => matchIndices norm p.1) ↔
      i < norm.length ∧ dupPred norm (norm.getD i none) = true := by
  rw [List.mem_flatMap]
  constructor
  · rintro ⟨⟨v, c⟩, hp, hi⟩
    obtain ⟨hv, rfl, hc⟩ := mem_dupGroups.1 hp
    obtain ⟨hlen, hEq⟩ := mem_matchIndices.1 hi
    refine ⟨hlen, ?_⟩
    rw [hEq]
    simpa [dupPred] using hc
  · rintro ⟨hlen, hdup⟩
    rcases ho : norm.getD i none with _ | v
    · rw [ho] at hdup; simp [dupPred] at hdup
    · rw [ho] at hdup
      have hc : 1 < norm.count (some v) := by simpa [dupPred] using hdup
      have hmem : some v ∈ norm := by
        have := List.getD_eq_getElem?_getD norm i none
        rw [List.getElem?_eq_getElem hlen] at this
        rw [ho] at this
        exact this ▸ List.getElem_mem hlen
      exact ⟨(v, norm.count (some v)), mem_dupGroups.2 ⟨hmem, rfl, hc⟩,
        mem_matchIndices.2 ⟨hlen, ho⟩⟩

/-- The concatenated affected list of the duplicate detectors has exactly one
entry per record lying in a duplicated group. -/
theorem length_dupAffected {α : Type} [DecidableEq α] (norm : List (Option α)) :
    (((valueCounts (norm.filterMap id)).filter (fun p => 1 < p.2)).flatMap
      (fun p => matchIndices norm p.1)).length = norm.countP (dupPred norm) := by
  rw [← length_filter_range_getD norm none (dupPred norm)]
  refine length_eq_of_nodup_mem_iff (nodup_dupAffected norm)
    ((List.nodup_range _).filter _) (fun i => ?_)
  rw [mem_dupAffected, mem_filter_range_getD]

/-- The duplicate grouping is nonempty exactly when some record lies in a
duplicated group. -/
theorem dupGroups_empty_iff {α : Type} [DecidableEq α] (norm : List (Option α)) :
    ((valueCounts (norm.filterMap id)).filter (fun p => 1 < p.2)).isEmpty = true ↔
      norm.countP (dupPred norm) = 0 := by
  rw [List.isEmpty_iff, ← List.length_eq_zero, ← length_dupAffected]
  rw [List.length_eq_zero]
  constructor
  · intro h; rw [h]; rfl
  · intro h
    rcases hd : (valueCounts (norm.filterMap id)).filter (fun p => 1 < p.2) with _ | ⟨⟨v, c⟩, rest⟩
    · exact hd
    · exfalso
      have hp : (v, c) ∈ (valueCounts (norm.filterMap id)).filter (fun p => 1 < p.2) := by
        rw [hd]; exact List.mem_cons_self ..
      obtain ⟨hv, rfl, hc⟩ := mem_dupGroups.1 hp
      have hlm : (matchIndices norm v).length = norm.count (some v) := length_matchIndices _ _
      obtain ⟨j, hj⟩ : ∃ j, j ∈ matchIndices norm v := by
        rcases hm : matchIndices norm v with _ | ⟨j, js⟩
        · rw [hm] at hlm; simp at hlm; omega
        · exact ⟨j, by simp [hm]⟩
      have hjmem : j ∈ ((valueCounts (norm.filterMap id)).filter (fun p => 1 < p.2)).flatMap
          (fun p => matchIndices norm p.1) :=
        List.mem_flatMap_of_mem hp hj
      have hpos : 0 < (((valueCounts (norm.filterMap id)).filter (fun p => 1 < p.2)).flatMap
          (fun p => matchIndices norm p.1)).length :=
        List.length_pos_of_mem hjmem
      omega

/-! ## Behaviour on zero-row tables -/

@[simp] theorem uniqueFirst_nil {α : Type} [DecidableEq α] :
    uniqueFirst ([] : List α) = [] := rfl

@[simp] theorem valueCounts_nil {α : Type} [DecidableEq α] :
    valueCounts ([] : List α) = [] := by
  simp [valueCounts]

theorem getCol_empty {t : Table} (hwf : t.wf) (h0 : t.nRows = 0) {name : String}
    {cells : List Cell} (h : t.getCol name = some cells) : cells = [] := by
  unfold Table.getCol at h
  rcases hf : t.cols.find? (fun c => c.name == name) with _ | c
  · rw [hf] at h; cases h
  · rw [hf] at h
    have hc : c ∈ t.cols := List.mem_of_find?_eq_some hf
    have hlen := hwf c hc
    rw [h0] at hlen
    cases h
    exact List.length_eq_zero.1 hlen

theorem checkDuplicateEmails_empty {t : Table} (hwf : t.wf) (h0 : t.nRows = 0) :
    checkDuplicateEmails t = .ok [] := by
  unfold checkDuplicateEmails
  rcases hcol : t.getCol "email" with _ | cells
  · rfl
  · have := getCol_empty hwf h0 hcol
    subst this
    rfl

theorem checkDuplicatePhones_empty {t : Table} (hwf : t.wf) (h0 : t.nRows = 0)
    (env : Env) (pc : String) : checkDuplicatePhones env t pc = [] := by
  unfold checkDuplicatePhones
  rcases hcol : t.getCol pc with _ | cells
  · rfl
  · have := getCol_empty hwf h0 hcol
    subst this
    rfl

theorem checkContactOverlap_empty {t : Table} (hwf : t.wf) (h0 : t.nRows = 0) :
    checkContactOverlap t = [] := by
  unfold checkContactOverlap
  rcases hcol : t.getCol "email" with _ | cells
  · rfl
  · have := getCol_empty hwf h0 hcol
    subst this
    simp [overlapsFor]

theorem analyzeAgePatterns_empty {t : Table} (hwf : t.wf) (h0 : t.nRows = 0) :
    analyzeAgePatterns t = .ok [] := by
  unfold analyzeAgePatterns
  rcases hcol : t.getCol "age" with _ | cells
  · rfl
  · have := getCol_empty hwf h0 hcol
    subst this
    rfl

theorem analyzeDateClustering_empty {t : Table} (hwf : t.wf) (h0 : t.nRows = 0)
    (env : Env) (col : String) : analyzeDateClustering env t col = [] := by
  unfold analyzeDateClustering
  rcases hcol : t.getCol col with _ | cells
  · rfl
  · have := getCol_empty hwf h0 hcol
    subst this
    rfl

theorem validateJoinDates_empty {t : Table} (hwf : t.wf) (h0 : t.nRows = 0)
    (env : Env) (fy : Int) (col : String) : validateJoinDates env fy t col = [] := by
  unfold validateJoinDates
  rcases hcol : t.getCol col with _ | cells
  · rfl
  · have := getCol_empty hwf h0 hcol
    subst this
    rfl

theorem validateAgeBirthdateConsistency_empty {t : Table} (hwf : t.wf) (h0 : t.nRows = 0)
    (env : Env) : validateAgeBirthdateConsistency env t = .ok [] := by
  unfold validateAgeBirthdateConsistency
  rcases hb : t.colNames.filter isBirthName with _ | ⟨bc, bs⟩
  · cases t.getCol "age" <;> rfl
  · rcases hcol : t.getCol "age" with _ | ages
    · rfl
    · have := getCol_empty hwf h0 hcol
      subst this
      rfl

theorem validateTemporalRelationships_empty {t : Table} (hwf : t.wf) (h0 : t.nRows = 0)
    (env : Env) : validateTemporalRelationships env t = [] := by
  unfold validateTemporalRelationships
  rcases hb : t.colNames.filter isBirthName with _ | ⟨bc, bs⟩
  · rfl
  · rcases hj : t.colNames.filter isJoinName with _ | ⟨jc, js⟩
    · rfl
    · rcases hcol : t.getCol bc with _ | bcells
      · simp [hcol]
        constructor <;> (intro x hx; simp [toDatetime] at hx)
      · have := getCol_empty hwf h0 hcol
        subst this
        simp [hcol]
        constructor <;> (intro x hx; simp [toDatetime] at hx)

theorem detectBulkImportPatterns_empty {t : Table} (hwf : t.wf) (h0 : t.nRows = 0)
    (env : Env) (col : String) : detectBulkImportPatterns env t col = [] := by
  unfold detectBulkImportPatterns
  rcases hcol : t.getCol col with _ | cells
  · rfl
  · have := getCol_empty hwf h0 hcol
    subst this
    rfl

theorem validateAgeRanges_empty {t : Table} (hwf : t.wf) (h0 : t.nRows = 0) :
    validateAgeRanges t = .ok [] := by
  unfold validateAgeRanges
  rcases hcol : t.getCol "age" with _ | cells
  · rfl
  · have := getCol_empty hwf h0 hcol
    subst this
    rfl

theorem analyzeEmploymentDuration_empty {t : Table} (hwf : t.wf) (h0 : t.nRows = 0)
    (env : Env) : analyzeEmploymentDuration env t = [] := by
  unfold analyzeEmploymentDuration
  rcases hj : t.colNames.filter isJoinName with _ | ⟨jc, js⟩
  · rfl
  · rcases hcol : t.getCol jc with _ | cells
    · simp [hcol, toDatetime]
    · have := getCol_empty hwf h0 hcol
      subst this
      simp [hcol, toDatetime]

theorem runDetectors_empty {t : Table} (hwf : t.wf) (h0 : t.nRows = 0)
    (env : Env) (fy : Int) : runDetectors env fy t = ([], none) := by
  unfold runDetectors
  rw [checkDuplicateEmails_empty hwf h0]
  have hphones : (t.colNames.filter isPhoneName).flatMap (checkDuplicatePhones env t) = [] := by
    apply List.flatMap_eq_nil_iff.2
    intro pc _
    exact checkDuplicatePhones_empty hwf h0 env pc
  have hdates : (t.colNames.filter isDateName).flatMap (analyzeDateClustering env t) = [] := by
    apply List.flatMap_eq_nil_iff.2
    intro c _
    exact analyzeDateClustering_empty hwf h0 env c
  have hjoins : (t.colNames.filter isJoinName).flatMap (validateJoinDates env fy t) = [] := by
    apply List.flatMap_eq_nil_iff.2
    intro c _
    exact validateJoinDates_empty hwf h0 env fy c
  have hbulk : (t.colNames.filter isJoinName).flatMap (detectBulkImportPatterns env t) = [] := by
    apply List.flatMap_eq_nil_iff.2
    intro c _
    exact detectBulkImportPatterns_empty hwf h0 env c
  rw [hphones, hdates, hjoins, hbulk, checkContactOverlap_empty hwf h0,
    analyzeAgePatterns_empty hwf h0, validateTemporalRelationships_empty hwf h0 env,
    analyzeEmploymentDuration_empty hwf h0 env]
  cases hage : (t.hasCol "age" && t.colNames.any isBirthName) <;>
    cases hage2 : t.hasCol "age" <;>
      simp [step, hage, hage2, validateAgeBirthdateConsistency_empty hwf h0 env,
        validateAgeRanges_empty hwf h0]

theorem roundDec_self_100 : roundDec 1 100 = 100 := by
  norm_num [roundDec, rhe]

/-! ## Fault behaviour of the fallible detectors -/

theorem step_snd_ok (acc : List Issue × Option PyErr) (js : List Issue) :
    (step acc (.ok js)).2 = acc.2 := by
  rcases acc with ⟨is, _ | e⟩ <;> rfl

theorem checkDuplicateEmails_ok (t : Table)
    (h : ∀ cells, t.getCol "email" = some cells → objectDtype cells = true) :
    ∃ is, checkDuplicateEmails t = .ok is := by
  unfold checkDuplicateEmails
  rcases hcol : t.getCol "email" with _ | cells
  · exact ⟨[], rfl⟩
  · have hobj := h cells hcol
    dsimp only
    unfold strLowerStrip
    rw [if_pos hobj]
    simp only [Bind.bind, Except.bind, Pure.pure, Except.pure]
    split <;> exact ⟨_, rfl⟩

theorem any_isStr_dropNa {cells : List Cell} (h : cells.any Cell.isStr = false) :
    (dropNa cells).any Cell.isStr = false := by
  rw [List.any_eq_false] at h ⊢
  intro c hc
  exact h c (List.mem_of_mem_filter hc)

theorem analyzeAgePatterns_ok (t : Table)
    (h : ∀ cells, t.getCol "age" = some cells → cells.any Cell.isStr = false) :
    ∃ is, analyzeAgePatterns t = .ok is := by
  unfold analyzeAgePatterns
  rcases hcol : t.getCol "age" with _ | cells
  · exact ⟨[], rfl⟩
  · have hstr := h cells hcol
    have hstr' := any_isStr_dropNa hstr
    dsimp only
    unfold seriesMod5Eq0
    rw [if_neg (show ¬((dropNa cells).any Cell.isStr = true) by simp [hstr'])]
    rw [if_neg (show ¬(cells.any Cell.isStr = true) by simp [hstr])]
    simp only [Bind.bind, Except.bind, Pure.pure, Except.pure]
    split <;> first
      | exact ⟨_, rfl⟩
      | (split <;> first
          | exact ⟨_, rfl⟩
          | (split <;> exact ⟨_, rfl⟩))

theorem validateAgeBirthdateConsistency_ok (env : Env) (t : Table)
    (h : ∀ cells, t.getCol "age" = some cells → cells.any Cell.isStr = false) :
    ∃ is, validateAgeBirthdateConsistency env t = .ok is := by
  unfold validateAgeBirthdateConsistency
  rcases hb : t.colNames.filter isBirthName with _ | ⟨bc, bs⟩
  · cases t.getCol "age" <;> exact ⟨[], rfl⟩
  · rcases hcol : t.getCol "age" with _ | ages
    · exact ⟨[], rfl⟩
    · have hstr := h ages hcol
      dsimp only
      rw [if_neg (show ¬(ages.any Cell.isStr = true) by simp [hstr])]
      simp only [Bind.bind, Except.bind, Pure.pure, Except.pure]
      split <;> exact ⟨_, rfl⟩

theorem validateAgeRanges_ok (t : Table)
    (h : ∀ cells, t.getCol "age" = some cells → cells.any Cell.isStr = false) :
    ∃ is, validateAgeRanges t = .ok is := by
  unfold validateAgeRanges
  rcases hcol : t.getCol "age" with _ | cells
  · exact ⟨[], rfl⟩
  · dsimp only
    rw [if_neg (show ¬(cells.any Cell.isStr = true) by simp [h cells hcol])]
    exact ⟨_, rfl⟩

/-- With expected value kinds in the `email` and `age` columns, no detector
raises: the whole run accumulates issues without a fault. -/
theorem runDetectors_no_fault (env : Env) (fy : Int) (t : Table)
    (hemail : ∀ cells, t.getCol "email" = some cells → objectDtype cells = true)
    (hage : ∀ cells, t.getCol "age" = some cells → cells.any Cell.isStr = false) :
    (runDetectors env fy t).2 = none := by
  obtain ⟨is1, h1⟩ := checkDuplicateEmails_ok t hemail
  obtain ⟨is4, h4⟩ := analyzeAgePatterns_ok t hage
  obtain ⟨is7, h7⟩ := validateAgeBirthdateConsistency_ok env t hage
  obtain ⟨is10, h10⟩ := validateAgeRanges_ok t hage
  unfold runDetectors
  rw [h1, h4, h7, h10]
  cases hg1 : (t.hasCol "age" && t.colNames.any isBirthName) <;>
    cases hg2 : t.hasCol "age" <;>
      simp [hg1, hg2, step_snd_ok]

/-! ## Claim theorems and witnesses (C1, C2, C7, C9) -/

/-- C1 (counterexample): on a syntactically valid table whose `email` column
is wholly numeric, `validate_dataset` does not return a report — the email
duplicate detector's `.str` accessor raises `AttributeError` and no run-level
wrapping catches it, so the fault propagates to the caller. -/
theorem validateDataset_numericEmail_raises :
    (validateDataset testEnv v0 numericEmailTable).1 = .error .attributeError := rfl

/-- C1 (amended): for tables whose `email` column (if any) has object dtype
and whose `age` column (if any) holds no strings, `validate_dataset` completes
and returns a report; there is no run-level wrapping, so outside these
conditions a detector fault propagates (see the counterexample). -/
theorem validateDataset_ok_of_expected_dtypes (env : Env) (v : Validator) (t : Table)
    (hemail : ∀ cells, t.getCol "email" = some cells → objectDtype cells = true)
    (hage : ∀ cells, t.getCol "age" = some cells → cells.any Cell.isStr = false) :
    ∃ rep, (validateDataset env v t).1 = .ok rep := by
  have hsnd := runDetectors_no_fault env v.company_founding_year t hemail hage
  unfold validateDataset
  cases hre : runDetectors env v.company_founding_year t with
  | mk issues err =>
    rw [hre] at hsnd
    simp only at hsnd
    subst hsnd
    exact ⟨_, rfl⟩

/-- Witness for C1 (amended): the benign table satisfies both column
conditions and validates to a report. -/
theorem validateDataset_ok_of_expected_dtypes_witness :
    ∃ rep, (validateDataset testEnv v0 benignTable).1 = .ok rep :=
  validateDataset_ok_of_expected_dtypes testEnv v0 benignTable
    (by intro cells h; cases h; rfl) (by intro cells h; cases h; rfl)

/-- C2: on every well-formed zero-row table the run completes with a report
showing quality score 100, zero issues found, and `validation_passed`. -/
theorem validateDataset_empty_table (env : Env) (v : Validator) (t : Table)
    (hwf : t.wf) (h0 : t.nRows = 0) :
    ∃ rep, (validateDataset env v t).1 = .ok rep ∧
      rep.summary.data_quality_score = 100 ∧
      rep.summary.total_issues_found = 0 ∧
      rep.validation_passed = true := by
  refine ⟨generateReport env t [], ?_, ?_, rfl, rfl⟩
  · unfold validateDataset
    rw [runDetectors_empty hwf h0]
  · show roundDec 1 (if 0 < t.nRows then _ else 100) = 100
    rw [h0, if_neg (by omega)]
    exact roundDec_self_100

/-- Witness for C2 at the concrete empty table. -/
theorem validateDataset_empty_table_witness :
    ∃ rep, (validateDataset testEnv v0 emptyTable).1 = .ok rep ∧
      rep.summary.data_quality_score = 100 ∧
      rep.summary.total_issues_found = 0 ∧
      rep.validation_passed = true :=
  validateDataset_empty_table testEnv v0 emptyTable
    (by intro c hc; fin_cases hc <;> rfl) rfl

/-- C7: phone normalization is a total function into `Option`: every input is
either formatted to E.164 (valid parse), or degraded to the non-digit-stripped
fallback (parse failure or invalid number, nonempty fallback), or mapped to
`none` (absent input or empty fallback).  Determinism and absence of
exceptions are inherent: `normalizePhone` is a plain function into
`Option String`. -/
theorem normalizePhone_total_cases (env : Env) (c : Cell) :
    (∃ p, c ≠ .absent ∧ env.parsePhone (strOfCell c) = some p ∧
        env.isValidNumber p = true ∧
        normalizePhone env c = some (env.formatE164 p)) ∨
    (normalizePhone env c = some (stripNonDigits (strOfCell c)) ∧
        stripNonDigits (strOfCell c) ≠ "" ∧
        (env.parsePhone (strOfCell c) = none ∨
          ∃ p, env.parsePhone (strOfCell c) = some p ∧ env.isValidNumber p = false)) ∨
    (normalizePhone env c = none ∧
        (c = .absent ∨ stripNonDigits (strOfCell c) = "")) := by
  have main : c ≠ Cell.absent →
      (∃ p, c ≠ .absent ∧ env.parsePhone (strOfCell c) = some p ∧
          env.isValidNumber p = true ∧
          normalizePhone env c = some (env.formatE164 p)) ∨
      (normalizePhone env c = some (stripNonDigits (strOfCell c)) ∧
          stripNonDigits (strOfCell c) ≠ "" ∧
          (env.parsePhone (strOfCell c) = none ∨
            ∃ p, env.parsePhone (strOfCell c) = some p ∧ env.isValidNumber p = false)) ∨
      (normalizePhone env c = none ∧
          (c = .absent ∨ stripNonDigits (strOfCell c) = "")) := by
    intro hne
    have hn : normalizePhone env c =
        (match env.parsePhone (strOfCell c) with
         | some p =>
           if env.isValidNumber p then some (env.formatE164 p)
           else
             let d := stripNonDigits (strOfCell c)
             if d = "" then none else some d
         | none =>
           let d := stripNonDigits (strOfCell c)
           if d = "" then none else some d) := by
      cases c with
      | absent => exact absurd rfl hne
      | str s => rfl
      | int n => rfl
    rcases hp : env.parsePhone (strOfCell c) with _ | p
    · by_cases hd : stripNonDigits (strOfCell c) = ""
      · exact Or.inr (Or.inr ⟨by rw [hn, hp]; simp [hd], Or.inr hd⟩)
      · exact Or.inr (Or.inl ⟨by rw [hn, hp]; simp [hd], hd, Or.inl rfl⟩)
    · by_cases hv : env.isValidNumber p
      · exact Or.inl ⟨p, hne, rfl, hv, by rw [hn, hp]; simp [hv]⟩
      · by_cases hd : stripNonDigits (strOfCell c) = ""
        · exact Or.inr (Or.inr ⟨by rw [hn, hp]; simp [hv, hd], Or.inr hd⟩)
        · exact Or.inr (Or.inl ⟨by rw [hn, hp]; simp [hv, hd], hd,
            Or.inr ⟨p, rfl, by simpa using hv⟩⟩)
  cases c with
  | absent => exact Or.inr (Or.inr ⟨rfl, Or.inl rfl⟩)
  | str s => exact main (by simp)
  | int n => exact main (by simp)

/-- C9: `validate_dataset` clears `self.issues` on entry, so the returned
report depends only on the configuration (founding year), the input table and
the run environment — no state leaks between runs. -/
theorem validateDataset_state_independent (env : Env) (t : Table) (v1 v2 : Validator)
    (h : v1.company_founding_year = v2.company_founding_year) :
    (validateDataset env v1 t).1 = (validateDataset env v2 t).1 := by
  unfold validateDataset
  rw [h]
  cases hre : runDetectors env v2.company_founding_year t with
  | mk issues err => cases err <;> rfl

/-- Witness for C9: two validators with different leftover issue lists and
current-year fields produce the same result. -/
theorem validateDataset_state_independent_witness :
    (validateDataset testEnv v0 temporalTable).1 =
      (validateDataset testEnv
        { company_founding_year := 1990
          issues := [{ category := "stale"
                       severity := .low
                       description := ""
                       affected_records := [7]
                       examples := []
                       count := 1
                       recommendation := "" }]
          current_year := 1999 }
        temporalTable).1 :=
  validateDataset_state_independent testEnv temporalTable _ _ rfl

/-! ## Claim theorems C6 / C10: temporal relationships -/

/-- C6: with a birth-like and a join-like column present (first match of each
used), a record whose parsed join date lies strictly before its parsed birth
date is flagged by the HIGH "Impossible Date Relationships" issue, and a
record whose age at join, `(join - birth).days / 365.25`, is below 16 is
flagged by the MEDIUM "Unreasonably Young Employees" issue. -/
theorem temporalRelationships_flags (env : Env) (t : Table) (bc jc : String)
    (bs js : List String)
    (hb : t.colNames.filter isBirthName = bc :: bs)
    (hj : t.colNames.filter isJoinName = jc :: js)
    (i : Nat) (b j : PDate)
    (hi : i < (toDatetime env ((t.getCol bc).getD [])).length)
    (hbirth : (toDatetime env ((t.getCol bc).getD [])).getD i none = some b)
    (hjoin : (toDatetime env ((t.getCol jc).getD [])).getD i none = some j) :
    (j.days < b.days →
      ∃ issue ∈ validateTemporalRelationships env t,
        issue.category = "Impossible Date Relationships" ∧
        issue.severity = .high ∧ i ∈ issue.affected_records) ∧
    (((j.days - b.days : Int) : ℚ) / 365.25 < 16 →
      ∃ issue ∈ validateTemporalRelationships env t,
        issue.category = "Unreasonably Young Employees" ∧
        issue.severity = .medium ∧ i ∈ issue.affected_records) := by
  unfold validateTemporalRelationships
  rw [hb, hj]
  dsimp only
  constructor
  · intro hlt
    have hmem : i ∈ (List.range (toDatetime env ((t.getCol bc).getD [])).length).filter
        (fun i => match (toDatetime env ((t.getCol bc).getD [])).getD i none,
                        (toDatetime env ((t.getCol jc).getD [])).getD i none with
                  | some b, some j => decide (j.days < b.days)
                  | _, _ => false) := by
      refine List.mem_filter.2 ⟨List.mem_range.2 hi, ?_⟩
      rw [hbirth, hjoin]
      simpa using hlt
    rw [if_neg (show ¬_ = true by rw [List.isEmpty_iff]; exact List.ne_nil_of_mem hmem)]
    exact ⟨_, List.mem_append_left _ (List.mem_cons_self ..), rfl, rfl, hmem⟩
  · intro hlt
    have hyoung : youngAtJoin b j = true := by
      unfold youngAtJoin
      rw [div_lt_iff (by norm_num : (0:ℚ) < 365.25)] at hlt
      norm_num at hlt
      have hInt : j.days - b.days < 5844 := by exact_mod_cast hlt
      simp only [decide_eq_true_eq]
      omega
    have hmem : i ∈ (List.range (toDatetime env ((t.getCol bc).getD [])).length).filter
        (fun i => match (toDatetime env ((t.getCol bc).getD [])).getD i none,
                        (toDatetime env ((t.getCol jc).getD [])).getD i none with
                  | some b, some j => youngAtJoin b j
                  | _, _ => false) := by
      refine List.mem_filter.2 ⟨List.mem_range.2 hi, ?_⟩
      rw [hbirth, hjoin]
      exact hyoung
    rw [if_neg (show ((List.range (toDatetime env ((t.getCol bc).getD [])).length).filter
        (fun i => match (toDatetime env ((t.getCol bc).getD [])).getD i none,
                        (toDatetime env ((t.getCol jc).getD [])).getD i none with
                  | some b, some j => youngAtJoin b j
                  | _, _ => false)).isEmpty ≠ true from
      fun h => List.ne_nil_of_mem hmem (List.isEmpty_iff.1 h))]
    refine ⟨_, List.mem_append_right _ (List.mem_cons_self ..), rfl, rfl, hmem⟩

/-- Witness for C6 at the concrete table: record 1 (born 2010, joined 2005)
is in the HIGH impossible issue; record 0 (born 2000, joined 2010, age ten)
is in the MEDIUM young issue. -/
theorem temporalRelationships_flags_witness :
    (∃ issue ∈ validateTemporalRelationships testEnv temporalTable,
        issue.category = "Impossible Date Relationships" ∧
        issue.severity = .high ∧ 1 ∈ issue.affected_records) ∧
    (∃ issue ∈ validateTemporalRelationships testEnv temporalTable,
        issue.category = "Unreasonably Young Employees" ∧
        issue.severity = .medium ∧ 0 ∈ issue.affected_records) :=
  ⟨(temporalRelationships_flags testEnv temporalTable "birth_date" "join_date" [] []
      (by decide) (by decide) 1 ⟨14610, 2010, 1, 1⟩ ⟨12784, 2005, 1, 1⟩
      (by decide) (by decide) (by decide)).1 (by decide),
   (temporalRelationships_flags testEnv temporalTable "birth_date" "join_date" [] []
      (by decide) (by decide) 0 ⟨10957, 2000, 1, 1⟩ ⟨14610, 2010, 1, 1⟩
      (by decide) (by decide) (by decide)).2 (by norm_num)⟩

/-- C10: a record with join strictly before birth is flagged by *both* the
HIGH impossible issue and the MEDIUM young issue, since a negative
`(join - birth)` duration also satisfies the under-16-years test. -/
theorem impossible_join_also_flagged_young (env : Env) (t : Table) (bc jc : String)
    (bs js : List String)
    (hb : t.colNames.filter isBirthName = bc :: bs)
    (hj : t.colNames.filter isJoinName = jc :: js)
    (i : Nat) (b j : PDate)
    (hi : i < (toDatetime env ((t.getCol bc).getD [])).length)
    (hbirth : (toDatetime env ((t.getCol bc).getD [])).getD i none = some b)
    (hjoin : (toDatetime env ((t.getCol jc).getD [])).getD i none = some j)
    (hlt : j.days < b.days) :
    (∃ issue ∈ validateTemporalRelationships env t,
        issue.category = "Impossible Date Relationships" ∧
        issue.severity = .high ∧ i ∈ issue.affected_records) ∧
    (∃ issue ∈ validateTemporalRelationships env t,
        issue.category = "Unreasonably Young Employees" ∧
        issue.severity = .medium ∧ i ∈ issue.affected_records) := by
  have h := temporalRelationships_flags env t bc jc bs js hb hj i b j hi hbirth hjoin
  refine ⟨h.1 hlt, h.2 ?_⟩
  have hneg : ((j.days - b.days : Int) : ℚ) < 0 := by
    have : (j.days - b.days : Int) < 0 := by omega
    exact_mod_cast this
  calc ((j.days - b.days : Int) : ℚ) / 365.25 < 0 := by
        apply div_neg_of_neg_of_pos hneg
        norm_num
    _ < 16 := by norm_num

/-- Witness for C10: record 1 of the concrete table (joined before being
born) appears in both issues. -/
theorem impossible_join_also_flagged_young_witness :
    (∃ issue ∈ validateTemporalRelationships testEnv temporalTable,
        issue.category = "Impossible Date Relationships" ∧
        issue.severity = .high ∧ 1 ∈ issue.affected_records) ∧
    (∃ issue ∈ validateTemporalRelationships testEnv temporalTable,
        issue.category = "Unreasonably Young Employees" ∧
        issue.severity = .medium ∧ 1 ∈ issue.affected_records) :=
  impossible_join_also_flagged_young testEnv temporalTable "birth_date" "join_date" [] []
    (by decide) (by decide) 1 ⟨14610, 2010, 1, 1⟩ ⟨12784, 2005, 1, 1⟩
    (by decide) (by decide) (by decide) (by decide)

/-! ## Claim theorem C4: email duplicate detection -/

/-- C4: on a table with an (object-dtype) email column, records are grouped
by normalized email — lowercased and whitespace-stripped, absent and
non-string cells ignored.  If no normalized value repeats nothing is emitted;
otherwise exactly one HIGH "Duplicate Email Addresses" issue is emitted whose
`count` is the total number of records across all duplicate groups, whose
`affected_records` are exactly those records, and whose `examples` hold at
most 5 groups of at most 3 sample records each. -/
theorem checkDuplicateEmails_spec (t : Table) (cells : List Cell)
    (norm : List (Option String))
    (hcol : t.getCol "email" = some cells) (hobj : objectDtype cells = true)
    (hnorm : norm = cells.map (fun c => match c with
      | .str s => some (pyStrip (pyLower s))
      | _ => none)) :
    (norm.countP (dupPred norm) = 0 → checkDuplicateEmails t = .ok []) ∧
    (0 < norm.countP (dupPred norm) →
      ∃ issue, checkDuplicateEmails t = .ok [issue] ∧
        issue.category = "Duplicate Email Addresses" ∧
        issue.severity = .high ∧
        issue.count = norm.countP (dupPred norm) ∧
        (∀ i, i ∈ issue.affected_records ↔
          i < norm.length ∧ dupPred norm (norm.getD i none) = true) ∧
        issue.examples.length ≤ 5 ∧
        (∀ ex ∈ issue.examples, ∃ e cnt recs, ex = Ex.emailGroup e cnt recs ∧
          recs.length ≤ 3)) := by
  have hbody : checkDuplicateEmails t =
      (if ((valueCounts (norm.filterMap id)).filter (fun p => 1 < p.2)).isEmpty then
        .ok []
      else
        .ok [{ category := "Duplicate Email Addresses"
               severity := .high
               description := "Found " ++
                 toString ((valueCounts (norm.filterMap id)).filter
                   (fun p => 1 < p.2)).length ++
                 " email addresses used by multiple records"
               affected_records := ((valueCounts (norm.filterMap id)).filter
                 (fun p => 1 < p.2)).flatMap (fun p => matchIndices norm p.1)
               examples := (((valueCounts (norm.filterMap id)).filter
                 (fun p => 1 < p.2)).map (fun p =>
                   Ex.emailGroup p.1 p.2
                     (((matchIndices norm p.1).map t.row).take 3))).take 5
               count := (((valueCounts (norm.filterMap id)).filter
                 (fun p => 1 < p.2)).flatMap (fun p => matchIndices norm p.1)).length
               recommendation := "Review duplicate emails for data entry errors or legitimate shared accounts. Consider implementing unique email constraints." }]) := by
    unfold checkDuplicateEmails
    rw [hcol]
    dsimp only
    unfold strLowerStrip
    rw [if_pos hobj, ← hnorm]
    simp only [Bind.bind, Except.bind, Pure.pure, Except.pure]
    try rfl
    try split <;> rfl
  constructor
  · intro h0
    rw [hbody, if_pos ((dupGroups_empty_iff norm).2 h0)]
  · intro hpos
    have hne : ¬ ((valueCounts (norm.filterMap id)).filter (fun p => 1 < p.2)).isEmpty = true := by
      intro h
      rw [dupGroups_empty_iff norm] at h
      omega
    rw [hbody, if_neg hne]
    refine ⟨_, rfl, rfl, rfl, length_dupAffected norm, fun i => mem_dupAffected,
      List.length_take_le _ _, ?_⟩
    intro ex hex
    obtain ⟨p, _, rfl⟩ := List.mem_map.1 (List.mem_of_mem_take hex)
    exact ⟨p.1, p.2, _, rfl, List.length_take_le _ _⟩

/-- Witness for C4: the concrete table with a duplicated email yields the
single HIGH issue with `count = 2`. -/
theorem checkDuplicateEmails_spec_witness :
    ∃ issue, checkDuplicateEmails overlapTable = .ok [issue] ∧
      issue.category = "Duplicate Email Addresses" ∧
      issue.severity = .high ∧
      issue.count = 2 := by
  obtain ⟨issue, h1, h2, h3, h4, _⟩ :=
    (checkDuplicateEmails_spec overlapTable
      [.str "a@x.com", .str "a@x.com"]
      [some "a@x.com", some "a@x.com"]
      (by decide) (by decide) (by decide)).2 (by decide)
  exact ⟨issue, h1, h2, h3, by rw [h4]; decide⟩

/-! ## Claim theorems C5: contact overlap -/

theorem mem_cellMatchIndices {cells : List Cell} {v : Cell} {i : Nat} :
    i ∈ cellMatchIndices cells v ↔
      i < cells.length ∧ v.isna = false ∧ cells.getD i .absent = v := by
  simp [cellMatchIndices, List.mem_filter, List.mem_range, Bool.and_eq_true]

theorem getCol_isSome_of_mem_colNames {t : Table} {name : String}
    (h : name ∈ t.colNames) : ∃ cs, t.getCol name = some cs := by
  unfold Table.colNames at h
  obtain ⟨c, hc, rfl⟩ := List.mem_map.1 h
  unfold Table.getCol
  rcases hf : t.cols.find? (fun d => d.name == c.name) with _ | d
  · exfalso
    have := List.find?_eq_none.1 hf c hc
    simp at this
  · exact ⟨d.cells, by rw [hf]; rfl⟩

/-- Membership in the overlap-collection list: an entry arises exactly from a
non-absent raw email value whose group has more than one record and a phone
column on which the group's non-absent phones are one distinct value. -/
theorem mem_overlapsFor {t : Table} {emailCells : List Cell} {pcols : List String}
    {o : Overlap} :
    o ∈ overlapsFor t emailCells pcols ↔
      ∃ e : Cell, e.isna = false ∧ 1 < (cellMatchIndices emailCells e).length ∧
        ∃ pc ∈ pcols, ∃ pcells, t.getCol pc = some pcells ∧
          ∃ p, uniqueFirst (dropNa ((cellMatchIndices emailCells e).map
            (fun i => pcells.getD i .absent))) = [p] ∧
          o = { email := e, phone := p, phone_column := pc,
                record_count := (cellMatchIndices emailCells e).length,
                indices := cellMatchIndices emailCells e } := by
  unfold overlapsFor
  rw [List.mem_flatMap]
  constructor
  · rintro ⟨e, hmemE, ho⟩
    dsimp only at ho
    by_cases hna : e.isna
    · rw [if_pos hna] at ho; simp at ho
    · rw [if_neg hna] at ho
      by_cases hgt : 1 < (cellMatchIndices emailCells e).length
      · rw [if_pos hgt] at ho
        obtain ⟨pc, hpc, hg⟩ := List.mem_filterMap.1 ho
        rcases hgc : t.getCol pc with _ | pcells
        · rw [hgc] at hg; cases hg
        · rw [hgc] at hg
          dsimp only at hg
          rcases hu : uniqueFirst (dropNa ((cellMatchIndices emailCells e).map
              (fun i => pcells.getD i .absent))) with _ | ⟨p, _ | _⟩
          · rw [hu] at hg; cases hg
          · rw [hu] at hg
            dsimp only at hg
            cases hg
            exact ⟨e, by simpa using hna, hgt, pc, hpc, pcells, hgc, p, hu, rfl⟩
          · rw [hu] at hg; cases hg
      · rw [if_neg hgt] at ho; simp at ho
  · rintro ⟨e, hna, hgt, pc, hpc, pcells, hgc, p, hu, rfl⟩
    have hne : e ∈ emailCells := by
      have hpos : 0 < (cellMatchIndices emailCells e).length := by omega
      obtain ⟨i, hi⟩ := List.exists_mem_of_length_pos hpos
      obtain ⟨hlt, _, hget⟩ := mem_cellMatchIndices.1 hi
      have hD := List.getD_eq_getElem?_getD emailCells i Cell.absent
      rw [List.getElem?_eq_getElem hlt] at hD
      rw [hget] at hD
      exact hD ▸ List.getElem_mem hlt
    refine ⟨e, (mem_uniqueFirst _ _).2 hne, ?_⟩
    dsimp only
    rw [if_neg (by simp [hna]), if_pos hgt]
    refine List.mem_filterMap.2 ⟨pc, hpc, ?_⟩
    rw [hgc]
    dsimp only
    rw [hu]

/-- The union of the overlap groups' indices. -/
theorem mem_overlapsFor_indices {t : Table} {emailCells : List Cell}
    {pcols : List String} {i : Nat} :
    i ∈ (overlapsFor t emailCells pcols).flatMap Overlap.indices ↔
      ∃ e : Cell, (e.isna = false ∧ 1 < (cellMatchIndices emailCells e).length ∧
        ∃ pc ∈ pcols, ∃ pcells, t.getCol pc = some pcells ∧
          ∃ p, uniqueFirst (dropNa ((cellMatchIndices emailCells e).map
            (fun i => pcells.getD i .absent))) = [p]) ∧
        i ∈ cellMatchIndices emailCells e := by
  rw [List.mem_flatMap]
  constructor
  · rintro ⟨o, ho, hi⟩
    obtain ⟨e, hna, hgt, pc, hpc, pcells, hgc, p, hu, rfl⟩ := mem_overlapsFor.1 ho
    exact ⟨e, ⟨hna, hgt, pc, hpc, pcells, hgc, p, hu⟩, hi⟩
  · rintro ⟨e, ⟨hna, hgt, pc, hpc, pcells, hgc, p, hu⟩, hi⟩
    exact ⟨_, mem_overlapsFor.2 ⟨e, hna, hgt, pc, hpc, pcells, hgc, p, hu, rfl⟩, hi⟩

theorem overlapsFor_eq_nil_iff {t : Table} {emailCells : List Cell}
    {pcols : List String} :
    overlapsFor t emailCells pcols = [] ↔
      ¬ ∃ e : Cell, e.isna = false ∧ 1 < (cellMatchIndices emailCells e).length ∧
        ∃ pc ∈ pcols, ∃ pcells, t.getCol pc = some pcells ∧
          ∃ p, uniqueFirst (dropNa ((cellMatchIndices emailCells e).map
            (fun i => pcells.getD i .absent))) = [p] := by
  rw [List.eq_nil_iff_forall_not_mem]
  constructor
  · rintro hall ⟨e, hna, hgt, pc, hpc, pcells, hgc, p, hu⟩
    exact hall _ (mem_overlapsFor.2 ⟨e, hna, hgt, pc, hpc, pcells, hgc, p, hu, rfl⟩)
  · intro hno o ho
    obtain ⟨e, hna, hgt, pc, hpc, pcells, hgc, p, hu, rfl⟩ := mem_overlapsFor.1 ho
    exact hno ⟨e, hna, hgt, pc, hpc, pcells, hgc, p, hu⟩

/-- C5 (counterexample): two records whose emails agree only after
normalization and which share a phone form a contact-overlap group under the
spec's normalized-email reading, but `_check_contact_overlap` — which groups
by the raw email value — emits nothing. -/
theorem contactOverlap_ignores_normalization :
    specContactOverlapGroups rawEmailTable ≠ [] ∧
      checkContactOverlap rawEmailTable = [] := by
  constructor
  · decide
  · decide

/-- C5 (amended): the detector groups by *raw* email equality (no
normalization); a group with more than one record is flagged for a phone
column exactly when its non-absent phone values have exactly one distinct
value (rows with absent phones do not block).  If any group qualifies, one
combined MEDIUM "Complete Contact Information Overlap" issue is emitted whose
affected records form the union of all qualifying groups, one contribution
per matching phone column. -/
theorem checkContactOverlap_spec (t : Table) (emailCells : List Cell)
    (hcol : t.getCol "email" = some emailCells)
    (hp : t.colNames.filter isPhoneName ≠ []) :
    ((¬ ∃ e : Cell, e.isna = false ∧ 1 < (cellMatchIndices emailCells e).length ∧
        ∃ pc ∈ t.colNames.filter isPhoneName, ∃ pcells, t.getCol pc = some pcells ∧
          ∃ p, uniqueFirst (dropNa ((cellMatchIndices emailCells e).map
            (fun i => pcells.getD i .absent))) = [p]) →
      checkContactOverlap t = []) ∧
    ((∃ e : Cell, e.isna = false ∧ 1 < (cellMatchIndices emailCells e).length ∧
        ∃ pc ∈ t.colNames.filter isPhoneName, ∃ pcells, t.getCol pc = some pcells ∧
          ∃ p, uniqueFirst (dropNa ((cellMatchIndices emailCells e).map
            (fun i => pcells.getD i .absent))) = [p]) →
      ∃ issue, checkContactOverlap t = [issue] ∧
        issue.severity = .medium ∧
        issue.category = "Complete Contact Information Overlap" ∧
        ∀ i, (i ∈ issue.affected_records ↔
          ∃ e : Cell, (e.isna = false ∧ 1 < (cellMatchIndices emailCells e).length ∧
            ∃ pc ∈ t.colNames.filter isPhoneName, ∃ pcells, t.getCol pc = some pcells ∧
              ∃ p, uniqueFirst (dropNa ((cellMatchIndices emailCells e).map
                (fun i => pcells.getD i .absent))) = [p]) ∧
            i ∈ cellMatchIndices emailCells e)) := by
  have hbody : checkContactOverlap t =
      (if (overlapsFor t emailCells (t.colNames.filter isPhoneName)).isEmpty then []
       else
        [{ category := "Complete Contact Information Overlap"
           severity := .medium
           description := "Found " ++
             toString (overlapsFor t emailCells (t.colNames.filter isPhoneName)).length ++
             " cases where multiple records share both email and phone"
           affected_records := (overlapsFor t emailCells
             (t.colNames.filter isPhoneName)).flatMap Overlap.indices
           examples := ((overlapsFor t emailCells
             (t.colNames.filter isPhoneName)).take 5).map Ex.overlapGroup
           count := ((overlapsFor t emailCells
             (t.colNames.filter isPhoneName)).flatMap Overlap.indices).length
           recommendation := "These may be legitimate duplicates or data entry errors. Review for consolidation opportunities." }]) := by
    unfold checkContactOverlap
    rw [hcol]
    dsimp only
    rw [if_neg (show ¬(t.colNames.filter isPhoneName).isEmpty = true from
      fun h => hp (List.isEmpty_iff.1 h))]
  constructor
  · intro hno
    rw [hbody, if_pos (by rw [List.isEmpty_iff]; exact overlapsFor_eq_nil_iff.2 hno)]
  · intro hex
    have hne : ¬ (overlapsFor t emailCells (t.colNames.filter isPhoneName)).isEmpty = true := by
      intro h
      exact (overlapsFor_eq_nil_iff.1 (List.isEmpty_iff.1 h)) hex
    rw [hbody, if_neg hne]
    exact ⟨_, rfl, rfl, rfl, fun i => mem_overlapsFor_indices⟩

/-- Witness for C5 (amended): the concrete table with one shared email and
two shared phone columns yields the single MEDIUM issue covering record 0. -/
theorem checkContactOverlap_spec_witness :
    ∃ issue, checkContactOverlap overlapTable = [issue] ∧
      issue.severity = .medium ∧
      issue.category = "Complete Contact Information Overlap" ∧
      0 ∈ issue.affected_records := by
  obtain ⟨issue, h1, h2, h3, h4⟩ :=
    (checkContactOverlap_spec overlapTable [.str "a@x.com", .str "a@x.com"]
      (by decide) (by decide)).2
      ⟨.str "a@x.com", by decide, by decide, "phone1", by decide,
        [.str "x1", .str "x1"], by decide, .str "x1", by decide⟩
  refine ⟨issue, h1, h2, h3, (h4 0).2 ⟨.str "a@x.com",
    ⟨by decide, by decide, "phone1", by decide, [.str "x1", .str "x1"],
      by decide, .str "x1", by decide⟩, by decide⟩⟩


/-! ## Claim theorems C3: score and percentage aggregation -/

theorem rhe_nonneg {q : ℚ} (h : 0 ≤ q) : 0 ≤ rhe q := by
  unfold rhe
  have hf : (0 : ℤ) ≤ ⌊q⌋ := Int.floor_nonneg.2 h
  split
  · exact hf
  · split
    · omega
    · split <;> omega

theorem rhe_le {q : ℚ} {m : ℤ} (h : q ≤ (m : ℚ)) : rhe q ≤ m := by
  unfold rhe
  have hf : ⌊q⌋ ≤ m := by
    have := Int.floor_le_floor h
    simpa using this
  have key : ¬ (q - (⌊q⌋ : ℚ) < 1/2) → ⌊q⌋ < m := by
    intro hr
    rcases lt_or_eq_of_le hf with h' | h'
    · exact h'
    · exfalso
      apply hr
      have hq : q ≤ (⌊q⌋ : ℚ) := by rw [h']; exact_mod_cast h
      linarith
  split
  · exact hf
  · split
    · have := key (by assumption)
      omega
    · split
      · exact hf
      · have := key (by assumption)
        omega

theorem roundDec_nonneg {n : ℕ} {q : ℚ} (h : 0 ≤ q) : 0 ≤ roundDec n q := by
  unfold roundDec
  apply div_nonneg _ (by positivity)
  exact_mod_cast rhe_nonneg (by positivity)

theorem roundDec_le_intCast {n : ℕ} {q : ℚ} {m : ℤ} (h : q ≤ (m : ℚ)) :
    roundDec n q ≤ (m : ℚ) := by
  unfold roundDec
  rw [div_le_iff (by positivity)]
  have hb : q * 10 ^ n ≤ ((m * 10 ^ n : ℤ) : ℚ) := by
    push_cast
    exact mul_le_mul_of_nonneg_right h (by positivity)
  have := rhe_le hb
  calc (rhe (q * 10 ^ n) : ℚ) ≤ ((m * 10 ^ n : ℤ) : ℚ) := by exact_mod_cast this
    _ = (m : ℚ) * 10 ^ n := by push_cast; ring

/-- C3 (amended): on a table with at least one record, the quality score is
`max(0, 100 − |union of affected_records| / total × 100)` rounded to one
decimal and lies in `[0, 100]`; every detailed issue's affected-percentage is
`round(count / total × 100, 2)` and is nonnegative — but it is *not* bounded
by 100 (see the counterexample: the contact-overlap issue counts a record
once per matching phone column). -/
theorem generateReport_score_and_percentage (env : Env) (t : Table)
    (issues : List Issue) (hn : 0 < t.nRows) :
    (generateReport env t issues).summary.data_quality_score =
      roundDec 1 (max 0 (100 -
        ((issues.flatMap Issue.affected_records).dedup.length : ℚ) /
          (t.nRows : ℚ) * 100)) ∧
    0 ≤ (generateReport env t issues).summary.data_quality_score ∧
    (generateReport env t issues).summary.data_quality_score ≤ 100 ∧
    ∀ d ∈ (generateReport env t issues).detailed_issues,
      d.affected_percentage = roundDec 2 ((d.count : ℚ) / (t.nRows : ℚ) * 100) ∧
      0 ≤ d.affected_percentage := by
  have hscore : (generateReport env t issues).summary.data_quality_score =
      roundDec 1 (max 0 (100 -
        ((issues.flatMap Issue.affected_records).dedup.length : ℚ) /
          (t.nRows : ℚ) * 100)) := by
    show roundDec 1 (if 0 < t.nRows then _ else _) = _
    rw [if_pos hn]
  refine ⟨hscore, ?_, ?_, ?_⟩
  · rw [hscore]
    exact roundDec_nonneg (le_max_left _ _)
  · rw [hscore]
    have harg : max 0 (100 -
        ((issues.flatMap Issue.affected_records).dedup.length : ℚ) /
          (t.nRows : ℚ) * 100) ≤ ((100 : ℤ) : ℚ) := by
      apply max_le
      · norm_num
      · have : 0 ≤ ((issues.flatMap Issue.affected_records).dedup.length : ℚ) /
            (t.nRows : ℚ) * 100 := by positivity
        push_cast
        linarith
    have := roundDec_le_intCast (n := 1) harg
    simpa using this
  · intro d hd
    obtain ⟨i, _, rfl⟩ := List.mem_map.1 hd
    constructor
    · rfl
    · exact roundDec_nonneg (by positivity)

/-- Witness for C3 (amended): score bounds at a concrete report. -/
theorem generateReport_score_and_percentage_witness :
    0 ≤ (generateReport testEnv overlapTable []).summary.data_quality_score ∧
      (generateReport testEnv overlapTable []).summary.data_quality_score ≤ 100 := by
  have h := generateReport_score_and_percentage testEnv overlapTable [] (by decide)
  exact ⟨h.2.1, h.2.2.1⟩

/-- C3 (counterexample): on the two-record table with one shared email and two
shared phone columns, the report contains a detailed issue (the contact
overlap) whose affected-percentage is 200, violating the claimed
`affected_percentage ≤ 100`. -/
theorem affected_percentage_exceeds_100 :
    (validateDataset testEnv v0 overlapTable).1 =
      .ok (generateReport testEnv overlapTable
        (runDetectors testEnv 1990 overlapTable).1) ∧
    ∃ d ∈ (generateReport testEnv overlapTable
        (runDetectors testEnv 1990 overlapTable).1).detailed_issues,
      d.affected_percentage = 200 := by
  refine ⟨rfl, ?_⟩
  have hmem : ∃ issue ∈ (runDetectors testEnv 1990 overlapTable).1,
      issue.count = 4 := by decide
  obtain ⟨issue, hi, hc⟩ := hmem
  refine ⟨⟨issue.category, issue.severity, issue.description, issue.count,
    roundDec 2 ((issue.count : ℚ) / (overlapTable.nRows : ℚ) * 100),
    issue.examples, issue.recommendation⟩, List.mem_map.2 ⟨issue, hi, rfl⟩, ?_⟩
  show roundDec 2 ((issue.count : ℚ) / (overlapTable.nRows : ℚ) * 100) = 200
  rw [hc]
  show roundDec 2 ((4 : ℚ) / ((2 : Nat) : ℚ) * 100) = 200
  norm_num [roundDec, rhe]

/-! ## Claim theorem C8: the count invariant of every detector -/

theorem length_flatMap_eq_sum {α β : Type} (l : List α) (f : α → List β) :
    (l.flatMap f).length = (l.map (fun a => (f a).length)).sum := by
  rw [List.flatMap, List.length_flatten, List.map_map]
  rfl

/-- Counting an option-level predicate over the parsed series equals counting
the value-level predicate over the non-`NaT` values. -/
theorem countP_opt_eq_filterMap {β : Type} (parsed : List (Option β))
    (q : Option β → Bool) (p : β → Bool)
    (hq : ∀ d, q (some d) = p d) (hn : q none = false) :
    parsed.countP q = (parsed.filterMap id).countP p := by
  rw [List.countP_filterMap]
  apply List.countP_congr
  intro o _
  cases o with
  | none => simp [hn]
  | some d => simp [hq]

/-- Filtering the parsed values equals enumerating the rows whose parsed entry
satisfies the option-level predicate. -/
theorem length_filter_range_opt_eq {β : Type} (parsed : List (Option β))
    (q : Option β → Bool) (p : β → Bool)
    (hq : ∀ d, q (some d) = p d) (hn : q none = false) :
    ((parsed.filterMap id).filter p).length =
      ((List.range parsed.length).filter (fun i => q (parsed.getD i none))).length := by
  rw [length_filter_range_getD parsed none q, ← List.countP_eq_length_filter]
  exact (countP_opt_eq_filterMap parsed q p hq hn).symm

theorem checkDuplicateEmails_count (t : Table) (is : List Issue)
    (h : checkDuplicateEmails t = .ok is) :
    ∀ issue ∈ is, issue.count = issue.affected_records.length ∧
      issue.affected_records.Nodup := by
  unfold checkDuplicateEmails at h
  rcases hcol : t.getCol "email" with _ | cells <;> rw [hcol] at h
  · injection h with h
    subst h
    simp
  · dsimp only at h
    unfold strLowerStrip at h
    by_cases hobj : objectDtype cells
    · rw [if_pos hobj] at h
      simp only [Bind.bind, Except.bind, Pure.pure, Except.pure] at h
      split at h
      · injection h with h
        subst h
        simp
      · injection h with h
        subst h
        intro issue hmem
        rw [List.mem_singleton] at hmem
        subst hmem
        exact ⟨rfl, nodup_dupAffected _⟩
    · rw [if_neg hobj] at h
      simp only [Bind.bind, Except.bind] at h
      cases h

theorem checkDuplicatePhones_count (env : Env) (t : Table) (pc : String) :
    ∀ issue ∈ checkDuplicatePhones env t pc,
      issue.count = issue.affected_records.length ∧
      issue.affected_records.Nodup := by
  unfold checkDuplicatePhones
  rcases hcol : t.getCol pc with _ | cells
  · simp
  · dsimp only
    split
    · simp
    · intro issue hmem
      rw [List.mem_singleton] at hmem
      subst hmem
      exact ⟨rfl, nodup_dupAffected _⟩

theorem checkContactOverlap_count (t : Table) :
    ∀ issue ∈ checkContactOverlap t,
      issue.count = issue.affected_records.length ∧
      issue.category = "Complete Contact Information Overlap" := by
  unfold checkContactOverlap
  rcases hcol : t.getCol "email" with _ | cells
  · simp
  · dsimp only
    split
    · simp
    · split
      · simp
      · intro issue hmem
        rw [List.mem_singleton] at hmem
        subst hmem
        exact ⟨rfl, rfl⟩

theorem count_mask_dropNa (g : Cell → Bool) (hg : g Cell.absent = false)
    (cells : List Cell) :
    ((dropNa cells).map g).count true = cells.countP g := by
  rw [List.count_eq_countP, List.countP_map, dropNa, List.countP_filter]
  apply List.countP_congr
  intro c _
  cases c <;> simp [hg, Cell.isna]

theorem affected_mask_length (g : Cell → Bool) (cells : List Cell) :
    ((List.range cells.length).filter (fun i => (cells.map g).getD i false)).length
      = cells.countP g := by
  have h := length_filter_range_getD (cells.map g) false (fun b => b)
  rw [List.length_map] at h
  calc ((List.range cells.length).filter (fun i => (cells.map g).getD i false)).length
      = (cells.map g).countP (fun b => b) := h
    _ = cells.countP g := by rw [List.countP_map]; rfl

theorem maxCount_clustering (cells : List Cell) {mca : Cell} {c0 : Nat}
    {rest : List (Cell × Nat)}
    (hh : valueCounts (dropNa cells) = (mca, c0) :: rest) :
    ((valueCounts (dropNa cells)).map Prod.snd).foldr max 0 =
      (cellMatchIndices cells mca).length := by
  have hmem : (mca, c0) ∈ valueCounts (dropNa cells) := by
    rw [hh]; exact List.mem_cons_self ..
  obtain ⟨hmca, hc0⟩ := mem_valueCounts.1 hmem
  dsimp only at hmca hc0
  have hmax : ((valueCounts (dropNa cells)).map Prod.snd).foldr max 0 = c0 := by
    apply foldr_max_eq
    · exact List.mem_map.2 ⟨(mca, c0), hmem, rfl⟩
    · intro x hx
      obtain ⟨q, hq, rfl⟩ := List.mem_map.1 hx
      exact head_valueCounts_max hh q hq
  have hna : mca.isna = false := by
    have := List.mem_filter.1 hmca
    simpa [Cell.isna] using this.2
  have hcount : (dropNa cells).count mca = cells.count mca := by
    rw [dropNa]
    exact List.count_filter (by simp [hna])
  have hlen : (cellMatchIndices cells mca).length =
      cells.countP (fun c => !mca.isna && decide (c = mca)) :=
    length_filter_range_getD cells Cell.absent (fun c => !mca.isna && decide (c = mca))
  rw [hmax, hc0, hcount, hlen, List.count_eq_countP]
  apply List.countP_congr
  intro c _
  simp [hna, beq_iff_eq]

theorem analyzeAgePatterns_count (t : Table) (is : List Issue)
    (h : analyzeAgePatterns t = .ok is) :
    ∀ issue ∈ is, issue.count = issue.affected_records.length ∧
      issue.affected_records.Nodup := by
  unfold analyzeAgePatterns at h
  rcases hcol : t.getCol "age" with _ | cells <;> rw [hcol] at h
  · injection h with h
    subst h
    simp
  · dsimp only at h
    unfold seriesMod5Eq0 at h
    by_cases hemp : (dropNa cells).isEmpty
    · rw [if_pos hemp] at h
      simp only [Pure.pure, Except.pure] at h
      injection h with h
      subst h
      simp
    · rw [if_neg hemp] at h
      by_cases hstr' : (dropNa cells).any Cell.isStr
      · rw [if_pos hstr'] at h
        simp only [Bind.bind, Except.bind] at h
        cases h
      · rw [if_neg hstr'] at h
        simp only [Bind.bind, Except.bind, Pure.pure, Except.pure] at h
        split at h
        · -- rounding threshold met: the inner mask over the full column
          by_cases hstr : cells.any Cell.isStr
          · rw [if_pos hstr] at h
            simp only [Bind.bind, Except.bind] at h
            cases h
          · rw [if_neg hstr] at h
            simp only [Bind.bind, Except.bind, Pure.pure, Except.pure] at h
            injection h with h
            subst h
            intro issue hmem
            rcases List.mem_append.1 hmem with h1 | h2
            · rw [List.mem_singleton] at h1
              subst h1
              refine ⟨?_, (List.nodup_range _).filter _⟩
              show ((dropNa cells).map _).count true = _
              rw [count_mask_dropNa _ rfl, affected_mask_length]
            · rcases hvc : valueCounts (dropNa cells) with _ | ⟨⟨mca, c0⟩, rest⟩ <;>
                rw [hvc] at h2
              · simp at h2
              · dsimp only at h2
                split at h2
                · rw [List.mem_singleton] at h2
                  subst h2
                  refine ⟨?_, (List.nodup_range _).filter _⟩
                  show (((mca, c0) :: rest).map Prod.snd).foldr max 0 = _
                  rw [← hvc]
                  exact maxCount_clustering cells hvc
                · simp at h2
        · -- rounding threshold not met
          injection h with h
          subst h
          intro issue hmem
          rcases List.mem_append.1 hmem with h1 | h2
          · simp at h1
          · rcases hvc : valueCounts (dropNa cells) with _ | ⟨⟨mca, c0⟩, rest⟩ <;>
              rw [hvc] at h2
            · simp at h2
            · dsimp only at h2
              split at h2
              · rw [List.mem_singleton] at h2
                subst h2
                refine ⟨?_, (List.nodup_range _).filter _⟩
                show (((mca, c0) :: rest).map Prod.snd).foldr max 0 = _
                rw [← hvc]
                exact maxCount_clustering cells hvc
              · simp at h2

theorem maxCount_dateClustering (parsed : List (Option PDate)) {mcd : PDate} {c0 : Nat}
    {rest : List (PDate × Nat)}
    (hh : valueCounts (parsed.filterMap id) = (mcd, c0) :: rest) :
    ((valueCounts (parsed.filterMap id)).map Prod.snd).foldr max 0 =
      (matchIndices parsed mcd).length := by
  have hmem : (mcd, c0) ∈ valueCounts (parsed.filterMap id) := by
    rw [hh]; exact List.mem_cons_self ..
  obtain ⟨hmcd, hc0⟩ := mem_valueCounts.1 hmem
  dsimp only at hmcd hc0
  have hmax : ((valueCounts (parsed.filterMap id)).map Prod.snd).foldr max 0 = c0 := by
    apply foldr_max_eq
    · exact List.mem_map.2 ⟨(mcd, c0), hmem, rfl⟩
    · intro x hx
      obtain ⟨q, hq, rfl⟩ := List.mem_map.1 hx
      exact head_valueCounts_max hh q hq
  rw [hmax, hc0, length_matchIndices]
  exact count_filterMap_id parsed mcd

theorem analyzeDateClustering_count (env : Env) (t : Table) (col : String) :
    ∀ issue ∈ analyzeDateClustering env t col,
      issue.count = issue.affected_records.length ∧
      issue.affected_records.Nodup := by
  unfold analyzeDateClustering
  rcases hcol : t.getCol col with _ | cells
  · simp
  · dsimp only
    split
    · simp
    · intro issue hmem
      rcases List.mem_append.1 hmem with h1 | h2
      · split at h1
        · rw [List.mem_singleton] at h1
          subst h1
          refine ⟨?_, (List.nodup_range _).filter _⟩
          show (((toDatetime env cells).filterMap id).filter
              (fun d => d.month == 1 && d.day == 1)).length =
            (jan1Indices (toDatetime env cells)).length
          exact length_filter_range_opt_eq (toDatetime env cells)
            (fun o => match o with
              | some d => d.month == 1 && d.day == 1
              | none => false)
            (fun d => d.month == 1 && d.day == 1) (fun d => rfl) rfl
        · simp at h1
      · rcases hvc : valueCounts ((toDatetime env cells).filterMap id) with
          _ | ⟨⟨mcd, c0⟩, rest⟩ <;> rw [hvc] at h2
        · simp at h2
        · dsimp only at h2
          split at h2
          · rw [List.mem_singleton] at h2
            subst h2
            refine ⟨?_, (List.nodup_range _).filter _⟩
            show (((mcd, c0) :: rest).map Prod.snd).foldr max 0 = _
            rw [← hvc]
            exact maxCount_dateClustering (toDatetime env cells) hvc
          · simp at h2

theorem validateJoinDates_count (env : Env) (fy : Int) (t : Table) (col : String) :
    ∀ issue ∈ validateJoinDates env fy t col,
      issue.count = issue.affected_records.length ∧
      issue.affected_records.Nodup := by
  unfold validateJoinDates
  rcases hcol : t.getCol col with _ | cells
  · simp
  · dsimp only
    intro issue hmem
    rcases List.mem_append.1 hmem with h1 | h2
    · split at h1
      · simp at h1
      · rw [List.mem_singleton] at h1
        subst h1
        exact ⟨rfl, (List.nodup_range _).filter _⟩
    · split at h2
      · simp at h2
      · rw [List.mem_singleton] at h2
        subst h2
        exact ⟨rfl, (List.nodup_range _).filter _⟩

theorem validateAgeBirthdateConsistency_count (env : Env) (t : Table) (is : List Issue)
    (h : validateAgeBirthdateConsistency env t = .ok is) :
    ∀ issue ∈ is, issue.count = issue.affected_records.length ∧
      issue.affected_records.Nodup := by
  unfold validateAgeBirthdateConsistency at h
  rcases hb : t.colNames.filter isBirthName with _ | ⟨bc, bs⟩ <;> rw [hb] at h
  · rcases hcol : t.getCol "age" with _ | ages <;> rw [hcol] at h <;>
      (injection h with h; subst h; simp)
  · rcases hcol : t.getCol "age" with _ | ages <;> rw [hcol] at h
    · injection h with h
      subst h
      simp
    · dsimp only at h
      by_cases hstr : ages.any Cell.isStr
      · rw [if_pos hstr] at h
        simp only [Bind.bind, Except.bind, throw, throwThe, MonadExceptOf.throw] at h
        cases h
      · rw [if_neg hstr] at h
        simp only [Bind.bind, Except.bind, Pure.pure, Except.pure] at h
        split at h
        · injection h with h
          subst h
          simp
        · injection h with h
          subst h
          intro issue hmem
          rw [List.mem_singleton] at hmem
          subst hmem
          exact ⟨rfl, (List.nodup_range _).filter _⟩

theorem validateTemporalRelationships_count (env : Env) (t : Table) :
    ∀ issue ∈ validateTemporalRelationships env t,
      issue.count = issue.affected_records.length ∧
      issue.affected_records.Nodup := by
  unfold validateTemporalRelationships
  rcases hb : t.colNames.filter isBirthName with _ | ⟨bc, bs⟩ <;>
    rcases hj : t.colNames.filter isJoinName with _ | ⟨jc, js⟩
  · simp
  · simp
  · simp
  dsimp only
  intro issue hmem
  rcases List.mem_append.1 hmem with h1 | h2
  · split at h1
    · simp at h1
    · rw [List.mem_singleton] at h1
      subst h1
      exact ⟨rfl, (List.nodup_range _).filter _⟩
  · split at h2
    · simp at h2
    · rw [List.mem_singleton] at h2
      subst h2
      exact ⟨rfl, (List.nodup_range _).filter _⟩

theorem nodup_periodIndices (parsed : List (Option PDate)) (per : Int × Nat) :
    (periodIndices parsed per).Nodup :=
  (List.nodup_range _).filter _

theorem disjoint_periodIndices (parsed : List (Option PDate)) {per per' : Int × Nat}
    (hne : per ≠ per') :
    List.Disjoint (periodIndices parsed per) (periodIndices parsed per') := by
  intro i h1 h2
  rw [periodIndices] at h1 h2
  have hp1 := (List.mem_filter.1 h1).2
  have hp2 := (List.mem_filter.1 h2).2
  rcases hd : parsed.getD i none with _ | d <;> rw [hd] at hp1 hp2
  · simp at hp1
  · apply hne
    have e1 : (d.year, d.month) = per := by simpa using hp1
    have e2 : (d.year, d.month) = per' := by simpa using hp2
    rw [← e1, e2]

theorem periodIndices_length (parsed : List (Option PDate)) (per : Int × Nat) :
    (periodIndices parsed per).length =
      ((parsed.filterMap id).map (fun d => (d.year, d.month))).countP
        (fun x => decide (x = per)) := by
  have h1 : (periodIndices parsed per).length = parsed.countP (fun o => match o with
      | some d => decide ((d.year, d.month) = per)
      | none => false) :=
    length_filter_range_getD parsed none (fun o => match o with
      | some d => decide ((d.year, d.month) = per)
      | none => false)
  rw [h1, countP_opt_eq_filterMap parsed _ (fun d => decide ((d.year, d.month) = per))
    (fun d => rfl) rfl, List.countP_map]
  rfl

/-- For any subset of the sorted monthly tallies (in particular the spike
months), the recorded count sum equals the length of the concatenated index
lists, and that concatenation has no duplicates (months are disjoint). -/
theorem bulk_spikes_facts (parsed : List (Option PDate))
    (cond : ((Int × Nat) × Nat) → Bool) :
    (((List.insertionSort (fun a b => periodLe a b = true)
        (valueCounts ((parsed.filterMap id).map (fun d => (d.year, d.month))))).filter
          cond).map Prod.snd).sum =
      (((List.insertionSort (fun a b => periodLe a b = true)
        (valueCounts ((parsed.filterMap id).map (fun d => (d.year, d.month))))).filter
          cond).flatMap (fun p => periodIndices parsed p.1)).length ∧
    (((List.insertionSort (fun a b => periodLe a b = true)
        (valueCounts ((parsed.filterMap id).map (fun d => (d.year, d.month))))).filter
          cond).flatMap (fun p => periodIndices parsed p.1)).Nodup := by
  constructor
  · rw [length_flatMap_eq_sum]
    congr 1
    apply List.map_congr_left
    intro p hp
    have hvc : p ∈ valueCounts ((parsed.filterMap id).map (fun d => (d.year, d.month))) :=
      (List.perm_insertionSort _ _).mem_iff.1 (List.mem_of_mem_filter hp)
    obtain ⟨_, hc⟩ := mem_valueCounts.1 hvc
    rw [periodIndices_length]
    exact hc
  · rw [List.nodup_flatMap]
    refine ⟨fun p _ => nodup_periodIndices _ _, ?_⟩
    have hkeys : ((((List.insertionSort (fun a b => periodLe a b = true)
        (valueCounts ((parsed.filterMap id).map (fun d => (d.year, d.month))))).filter
          cond)).map Prod.fst).Nodup := by
      apply List.Sublist.nodup ((List.filter_sublist _).map _)
      have hperm : List.Perm ((List.insertionSort (fun a b => periodLe a b = true)
          (valueCounts ((parsed.filterMap id).map
            (fun d => (d.year, d.month))))).map Prod.fst)
          ((valueCounts ((parsed.filterMap id).map
            (fun d => (d.year, d.month)))).map Prod.fst) :=
        (List.perm_insertionSort _ _).map _
      exact hperm.nodup_iff.2 (nodup_keys_valueCounts _)
    rw [List.Nodup, List.pairwise_map] at hkeys
    exact hkeys.imp (fun h => disjoint_periodIndices parsed h)

theorem detectBulkImportPatterns_count (env : Env) (t : Table) (col : String) :
    ∀ issue ∈ detectBulkImportPatterns env t col,
      issue.count = issue.affected_records.length ∧
      issue.affected_records.Nodup := by
  unfold detectBulkImportPatterns
  rcases hcol : t.getCol col with _ | cells
  · simp
  · dsimp only
    split
    · simp
    · split
      · simp
      · split
        · simp
        · intro issue hmem
          rw [List.mem_singleton] at hmem
          subst hmem
          exact ⟨(bulk_spikes_facts (toDatetime env cells) _).1,
            (bulk_spikes_facts (toDatetime env cells) _).2⟩

theorem validateAgeRanges_count (t : Table) (is : List Issue)
    (h : validateAgeRanges t = .ok is) :
    ∀ issue ∈ is, issue.count = issue.affected_records.length ∧
      issue.affected_records.Nodup := by
  unfold validateAgeRanges at h
  rcases hcol : t.getCol "age" with _ | cells <;> rw [hcol] at h
  · injection h with h
    subst h
    simp
  · dsimp only at h
    by_cases hstr : cells.any Cell.isStr
    · rw [if_pos hstr] at h
      cases h
    · rw [if_neg hstr] at h
      injection h with h
      subst h
      intro issue hmem
      rcases List.mem_append.1 hmem with h1 | h2
      · split at h1
        · simp at h1
        · rw [List.mem_singleton] at h1
          subst h1
          exact ⟨rfl, (List.nodup_range _).filter _⟩
      · split at h2
        · simp at h2
        · rw [List.mem_singleton] at h2
          subst h2
          exact ⟨rfl, (List.nodup_range _).filter _⟩

theorem analyzeEmploymentDuration_count (env : Env) (t : Table) :
    ∀ issue ∈ analyzeEmploymentDuration env t,
      issue.count = issue.affected_records.length ∧
      issue.affected_records.Nodup := by
  unfold analyzeEmploymentDuration
  rcases hj : t.colNames.filter isJoinName with _ | ⟨jc, js⟩
  · simp
  · dsimp only
    split
    · simp
    · intro issue hmem
      rw [List.mem_singleton] at hmem
      subst hmem
      exact ⟨rfl, (List.nodup_range _).filter _⟩

theorem step_forall {P : Issue → Prop} (acc : List Issue × Option PyErr)
    (r : Except PyErr (List Issue))
    (hacc : ∀ i ∈ acc.1, P i)
    (hr : ∀ js, r = .ok js → ∀ i ∈ js, P i) :
    ∀ i ∈ (step acc r).1, P i := by
  rcases acc with ⟨is, _ | e⟩
  · rcases r with e | js
    · simpa [step] using hacc
    · intro i hi
      simp only [step] at hi
      rcases List.mem_append.1 hi with h1 | h2
      · exact hacc i h1
      · exact hr js rfl i h2
  · simpa [step] using hacc

theorem ite_forall {P : Issue → Prop} (c : Prop) [Decidable c]
    (a b : List Issue × Option PyErr)
    (ha : ∀ i ∈ a.1, P i) (hb : ∀ i ∈ b.1, P i) :
    ∀ i ∈ (if c then a else b).1, P i := by
  split
  · exact ha
  · exact hb



/-- C8: every issue any detector emits has `count` equal to the number of
distinct record indices in its affected set — except the contact-overlap
issue, whose `count` is the sum of its sub-group sizes (the length of the
concatenation of the per-group index lists). -/
theorem issue_count_invariant (env : Env) (fy : Int) (t : Table) :
    ∀ issue ∈ (runDetectors env fy t).1,
      issue.count = issue.affected_records.dedup.length ∨
      (issue.category = "Complete Contact Information Overlap" ∧
        issue.count = issue.affected_records.length) := by
  have main : ∀ issue ∈ (runDetectors env fy t).1,
      issue.count = issue.affected_records.length ∧
      (issue.affected_records.Nodup ∨
        issue.category = "Complete Contact Information Overlap") := by
    have hP0 : ∀ i ∈ (([], none) : List Issue × Option PyErr).1,
        i.count = i.affected_records.length ∧
        (i.affected_records.Nodup ∨
          i.category = "Complete Contact Information Overlap") := by
      intro i hi
      simp at hi
    have hP1 := step_forall ([], none) (checkDuplicateEmails t) hP0
      (fun js hjs i hi =>
        let h := checkDuplicateEmails_count t js hjs i hi
        ⟨h.1, Or.inl h.2⟩)
    have hP2 := step_forall _
      (.ok ((t.colNames.filter isPhoneName).flatMap (checkDuplicatePhones env t))) hP1
      (by
        intro js hjs i hi
        injection hjs with hjs
        subst hjs
        obtain ⟨pc, _, hmem⟩ := List.mem_flatMap.1 hi
        obtain ⟨h1, h2⟩ := checkDuplicatePhones_count env t pc i hmem
        exact ⟨h1, Or.inl h2⟩)
    have hP3 := step_forall _ (.ok (checkContactOverlap t)) hP2
      (by
        intro js hjs i hi
        injection hjs with hjs
        subst hjs
        obtain ⟨h1, h2⟩ := checkContactOverlap_count t i hi
        exact ⟨h1, Or.inr h2⟩)
    have hP4 := step_forall _ (analyzeAgePatterns t) hP3
      (fun js hjs i hi =>
        let h := analyzeAgePatterns_count t js hjs i hi
        ⟨h.1, Or.inl h.2⟩)
    have hP5 := step_forall _
      (.ok ((t.colNames.filter isDateName).flatMap (analyzeDateClustering env t))) hP4
      (by
        intro js hjs i hi
        injection hjs with hjs
        subst hjs
        obtain ⟨c, _, hmem⟩ := List.mem_flatMap.1 hi
        obtain ⟨h1, h2⟩ := analyzeDateClustering_count env t c i hmem
        exact ⟨h1, Or.inl h2⟩)
    have hP6 := step_forall _
      (.ok ((t.colNames.filter isJoinName).flatMap (validateJoinDates env fy t))) hP5
      (by
        intro js hjs i hi
        injection hjs with hjs
        subst hjs
        obtain ⟨c, _, hmem⟩ := List.mem_flatMap.1 hi
        obtain ⟨h1, h2⟩ := validateJoinDates_count env fy t c i hmem
        exact ⟨h1, Or.inl h2⟩)
    have hP7 := ite_forall
      ((t.hasCol "age" && t.colNames.any isBirthName) = true) _ _
      (step_forall _ (validateAgeBirthdateConsistency env t) hP6
        (fun js hjs i hi =>
          let h := validateAgeBirthdateConsistency_count env t js hjs i hi
          ⟨h.1, Or.inl h.2⟩)) hP6
    have hP8 := step_forall _ (.ok (validateTemporalRelationships env t)) hP7
      (by
        intro js hjs i hi
        injection hjs with hjs
        subst hjs
        obtain ⟨h1, h2⟩ := validateTemporalRelationships_count env t i hi
        exact ⟨h1, Or.inl h2⟩)
    have hP9 := step_forall _
      (.ok ((t.colNames.filter isJoinName).flatMap (detectBulkImportPatterns env t))) hP8
      (by
        intro js hjs i hi
        injection hjs with hjs
        subst hjs
        obtain ⟨c, _, hmem⟩ := List.mem_flatMap.1 hi
        obtain ⟨h1, h2⟩ := detectBulkImportPatterns_count env t c i hmem
        exact ⟨h1, Or.inl h2⟩)
    have hP10 := ite_forall (t.hasCol "age" = true) _ _
      (step_forall _ (validateAgeRanges t) hP9
        (fun js hjs i hi =>
          let h := validateAgeRanges_count t js hjs i hi
          ⟨h.1, Or.inl h.2⟩)) hP9
    have hP11 := step_forall _ (.ok (analyzeEmploymentDuration env t)) hP10
      (by
        intro js hjs i hi
        injection hjs with hjs
        subst hjs
        obtain ⟨h1, h2⟩ := analyzeEmploymentDuration_count env t i hi
        exact ⟨h1, Or.inl h2⟩)
    exact hP11
  intro issue hmem
  obtain ⟨hc, hd⟩ := main issue hmem
  rcases hd with hnd | hcat
  · left
    rw [hc, List.dedup_eq_self.2 hnd]
  · right
    exact ⟨hcat, hc⟩


/-- Witness for C8: a concrete run whose issues (email duplicates, phone
duplicates, contact overlap) all satisfy the invariant. -/
theorem issue_count_invariant_witness :
    ∃ issue ∈ (runDetectors testEnv 1990 overlapTable).1,
      issue.count = issue.affected_records.dedup.length ∨
      (issue.category = "Complete Contact Information Overlap" ∧
        issue.count = issue.affected_records.length) := by
  have hmem : ∃ issue ∈ (runDetectors testEnv 1990 overlapTable).1,
      issue.category = "Complete Contact Information Overlap" := by decide
  obtain ⟨issue, hm, _⟩ := hmem
  exact ⟨issue, hm, issue_count_invariant testEnv 1990 overlapTable issue hm⟩

end AdvValidator
